import Mathlib

/-!
QuickJS for Windows: the debugger socket transport, the debugger state and
the strict NaN boxing of values.

A shallow embedding of `quickjs-debugger-transport-win.c`, of the structs of
`quickjs-debugger.h` and of the value macros of `quickjs.h`.

Every function of the C file becomes a Lean function of the same name.
The operating system is not part of the program: each Winsock / libc call the
code makes is recorded, in program order, in a list of `Call` events, and the
value the call hands back is an input of the model (an argument, or a field of
`Winsock`).  A C `int` is an `Int`, a `size_t` / `SOCKET` / pointer is a `Nat`;
the two conversions between them that the code performs implicitly are the
explicit functions `size_t_of_int` and `int_of_size_t`.
-/

namespace QuickJS

/-! ## Machine integers and Winsock constants -/

/-- Smallest value of a C `int` (32 bits). -/
def INT_MIN : Int := -2147483648

/-- Largest value of a C `int` (32 bits). -/
def INT_MAX : Int := 2147483647

/-- Largest value of a `size_t` on a 64-bit target. -/
def SIZE_MAX : Nat := 18446744073709551615

/-- Conversion `int → size_t`, as performed by the usual arithmetic conversions
in `ret > length`: reduction modulo `2^64`. -/
def size_t_of_int (x : Int) : Nat := (x % 18446744073709551616).toNat

/-- Conversion `size_t → int`, as performed when a `size_t` is passed for the
`int len` parameter of `recv` / `send`: the low 32 bits, read as two's complement. -/
def int_of_size_t (n : Nat) : Int :=
  if n % 4294967296 < 2147483648 then ((n % 4294967296 : Nat) : Int)
  else ((n % 4294967296 : Nat) : Int) - 4294967296

/-- Winsock: `INVALID_SOCKET` is `(SOCKET)(~0)`. -/
def INVALID_SOCKET : Nat := 18446744073709551615

/-- Winsock: `SOCKET_ERROR` is `-1`. -/
def SOCKET_ERROR : Int := -1

/-- The null pointer. -/
def NULL : Nat := 0

/-- Winsock: `POLLIN` is `POLLRDNORM | POLLRDBAND`. -/
def POLLIN : Nat := 768

/-- Winsock: `AF_INET`. -/
def AF_INET : Nat := 2

/-- Winsock: `SOCK_STREAM`. -/
def SOCK_STREAM : Nat := 1

/-- Winsock: `SOL_SOCKET`. -/
def SOL_SOCKET : Nat := 65535

/-- Winsock: `SO_REUSEADDR`. -/
def SO_REUSEADDR : Nat := 4

/-! ## Data model -/

/-- The C struct `js_transport_data`: the socket handle of a transport. -/
structure js_transport_data where
  handle : Nat
deriving DecidableEq, Repr

/-- The C struct `sockaddr_in`, fields as stored in memory: `sin_port` and
`sin_addr` hold network-byte-order values. -/
structure sockaddr_in where
  sin_family : Nat
  sin_port : Nat
  sin_addr : Nat
deriving DecidableEq, Repr

/-- One entry of the `WSAPOLLFD` array handed to `WSAPoll`. -/
structure WSAPOLLFD where
  fd : Nat
  events : Nat
  revents : Nat
deriving DecidableEq, Repr

/-- The four transport callbacks defined in the file, as passed to
`js_debugger_attach`. -/
inductive TransportFn where
  | js_transport_read
  | js_transport_write
  | js_transport_peek
  | js_transport_close
deriving DecidableEq, Repr

/-- The calls the transport file makes into Winsock, libc and the debugger
core, with the arguments that the code passes. -/
inductive Call where
  | WSAStartup (version : Nat)
  | WSACleanup
  | gethostbyname (name : List Char)
  | socket (af ty protocol : Nat)
  | connect (s : Nat) (addr : sockaddr_in)
  | setsockopt (s level optname : Nat) (optval : Int)
  | bind (s : Nat) (addr : sockaddr_in)
  | listen (s : Nat) (backlog : Int)
  | accept (s : Nat)
  | closesocket (s : Nat)
  | recv (s buf : Nat) (len flags : Int)
  | send (s buf : Nat) (len flags : Int)
  | WSAPoll (fds : List WSAPOLLFD) (nfds : Nat) (timeout : Int)
  | malloc
  | free
  | js_debugger_attach (read write peek close : TransportFn) (udata : js_transport_data)
deriving DecidableEq, Repr

/-- What a C function call leaves behind: the value it returns and the calls
it made, in program order. -/
structure Run (α : Type) where
  result : α
  calls : List Call

/-! ## The transport callbacks -/

/-- The C function `js_transport_read`; `recv_ret` is what `recv` returns if it is called. -/
def js_transport_read (data : js_transport_data) (buffer : Nat) (length : Nat)
    (recv_ret : Int) : Run Int :=
  if data.handle = INVALID_SOCKET then ⟨-1, []⟩
  else if length = 0 then ⟨-2, []⟩
  else if buffer = NULL then ⟨-3, []⟩
  else
    let ret := recv_ret
    let calls := [Call.recv data.handle buffer (int_of_size_t length) 0]
    if ret = SOCKET_ERROR then ⟨-4, calls⟩
    else if ret = 0 then ⟨-5, calls⟩
    else if size_t_of_int ret > length then ⟨-6, calls⟩
    else ⟨ret, calls⟩

/-- The C function `js_transport_write`; `send_ret` is what `send` returns if it is called. -/
def js_transport_write (data : js_transport_data) (buffer : Nat) (length : Nat)
    (send_ret : Int) : Run Int :=
  if data.handle = INVALID_SOCKET then ⟨-1, []⟩
  else if length = 0 then ⟨-2, []⟩
  else if buffer = NULL then ⟨-3, []⟩
  else
    let ret := send_ret
    let calls := [Call.send data.handle buffer (int_of_size_t length) 0]
    if ret ≤ 0 ∨ size_t_of_int ret > length then ⟨-4, calls⟩
    else ⟨ret, calls⟩

/-- The C function `js_transport_peek`; `poll_ret` is what `WSAPoll` returns if it is called. -/
def js_transport_peek (data : js_transport_data) (poll_ret : Int) : Run Int :=
  if data.handle = INVALID_SOCKET then ⟨-1, []⟩
  else
    let fds := [WSAPOLLFD.mk data.handle POLLIN 0]
    let poll_rc := poll_ret
    let calls := [Call.WSAPoll fds 1 0]
    if poll_rc < 0 then ⟨-2, calls⟩
    else if poll_rc > 1 then ⟨-3, calls⟩
    else if poll_rc = 0 then ⟨0, calls⟩
    else ⟨1, calls⟩

/-- The C function `js_transport_close`.  The result is the content of the
`js_transport_data` block after the call.  The block is handed to `free`; a
later call through the same pointer reads the block as it was left (in C, a
use of freed memory). -/
def js_transport_close (data : js_transport_data) : Run js_transport_data :=
  if data.handle = INVALID_SOCKET then ⟨data, []⟩
  else ⟨{ data with handle := 0 }, [Call.closesocket data.handle, Call.free, Call.WSACleanup]⟩

/-! ## Address parsing and connection set-up -/

/-- How the execution of a C function ends. -/
inductive Outcome (α : Type) where
  /-- The function returns to its caller. -/
  | returned (a : α)
  /-- A failed `assert` calls `abort()`: the process is terminated. -/
  | aborted
  /-- The execution runs into undefined behaviour (an invalid pointer is
  dereferenced, a buffer is overrun, `atoi` cannot represent its result). -/
  | undefined
deriving DecidableEq, Repr

/-- Position of the first occurrence of `c` in a C string: the offset of the
pointer `strstr(s, ":")` returns for `c = ':'`, `none` for a null result. -/
def strstr : List Char → Char → Option Nat
  | [], _ => none
  | x :: xs, c => if x = c then some 0 else (strstr xs c).map (· + 1)

/-- The libc predicate `isspace` in the "C" locale. -/
def isspace (c : Char) : Bool := c.toNat = 32 || (9 ≤ c.toNat && c.toNat ≤ 13)

/-- The libc predicate `isdigit`. -/
def isdigit (c : Char) : Bool := 48 ≤ c.toNat && c.toNat ≤ 57

/-- Value of the longest run of decimal digits at the start of `s`, continuing
the value `acc` read so far. -/
def atoi_digits : List Char → Nat → Nat
  | [], acc => acc
  | c :: cs, acc => if isdigit c then atoi_digits cs (acc * 10 + (c.toNat - 48)) else acc

/-- The libc function `atoi`: optional white space, an optional sign, then
decimal digits; anything after them is ignored and no digits at all gives 0.
The C standard leaves the behaviour undefined when the value is not
representable in an `int`: that case is `none`. -/
def atoi (s : List Char) : Option Int :=
  let s := s.dropWhile isspace
  let v : Int :=
    match s with
    | [] => 0
    | c :: t =>
      if c = '-' then -((atoi_digits t 0 : Nat) : Int)
      else if c = '+' then ((atoi_digits t 0 : Nat) : Int)
      else ((atoi_digits s 0 : Nat) : Int)
  if INT_MIN ≤ v ∧ v ≤ INT_MAX then some v else none

/-- Winsock `htons` on a little-endian host, applied to an `int` argument: the
argument is converted to `u_short` (reduced modulo `2^16`) and its two bytes
are swapped. -/
def htons (x : Int) : Nat :=
  let v := (x % 65536).toNat
  (v % 256) * 256 + v / 256

/-- The C struct `hostent` as far as the code reads it: the address list
(`h_addr` is its first entry).  `gethostbyname` only yields IPv4 entries, so
`h_length` is 4 and each entry fills `sin_addr` exactly. -/
structure hostent where
  h_addr_list : List Nat
deriving DecidableEq, Repr

/-- The C function `js_debugger_parse_sockaddr`.  `ndebug` tells whether the
file is compiled with `NDEBUG` (an `assert` then expands to nothing);
`resolver` is what `gethostbyname` returns for a host name. -/
def js_debugger_parse_sockaddr (ndebug : Bool) (resolver : List Char → Option hostent)
    (address : List Char) : Run (Outcome sockaddr_in) :=
  match strstr address ':' with
  | none =>
    -- assert(port_string); without it, atoi reads through the pointer NULL + 1
    if ndebug then ⟨.undefined, []⟩ else ⟨.aborted, []⟩
  | some i =>
    match atoi (address.drop (i + 1)) with
    | none => ⟨.undefined, []⟩
    | some port =>
      -- assert(port)
      if ¬ ndebug ∧ port = 0 then ⟨.aborted, []⟩
      -- strcpy into host_string[256]
      else if address.length ≥ 256 then ⟨.undefined, []⟩
      else
        let host_string := address.take i
        let calls := [Call.gethostbyname host_string]
        match resolver host_string with
        | none =>
          -- assert(host); without it, host->h_addr reads through a null pointer
          if ndebug then ⟨.undefined, calls⟩ else ⟨.aborted, calls⟩
        | some host =>
          match host.h_addr_list.head? with
          | none => ⟨.undefined, calls⟩
          | some h_addr =>
            ⟨.returned { sin_family := AF_INET, sin_port := htons port, sin_addr := h_addr }, calls⟩

/-- What the operating system answers to the calls made while a connection is
set up: the resolver, and the return value of each socket call. -/
structure Winsock where
  gethostbyname : List Char → Option hostent
  socket : Nat
  connect : Int
  setsockopt : Int
  bind : Int
  accept : Nat

/-- The call `js_debugger_attach(ctx, js_transport_read, js_transport_write,
js_transport_peek, js_transport_close, data)` made by both connection functions. -/
def attach_call (data : js_transport_data) : Call :=
  Call.js_debugger_attach TransportFn.js_transport_read TransportFn.js_transport_write
    TransportFn.js_transport_peek TransportFn.js_transport_close data

/-- The C function `js_debugger_connect`.  `malloc` is taken to succeed. -/
def js_debugger_connect (ndebug : Bool) (os : Winsock) (address : List Char) :
    Run (Outcome Unit) :=
  let startup := [Call.WSAStartup 514]
  let parsed := js_debugger_parse_sockaddr ndebug os.gethostbyname address
  match parsed.result with
  | .aborted => ⟨.aborted, startup ++ parsed.calls⟩
  | .undefined => ⟨.undefined, startup ++ parsed.calls⟩
  | .returned addr =>
    let client := os.socket
    -- the value of connect(...) is discarded
    let data : js_transport_data := { handle := client }
    ⟨.returned (), startup ++ parsed.calls ++
      [Call.socket AF_INET SOCK_STREAM 0, Call.connect client addr, Call.malloc, attach_call data]⟩

/-- The C function `js_debugger_wait_connection`.  Under `NDEBUG` the
`setsockopt` and `bind` calls, written inside `assert(...)`, are not compiled.
`malloc` is taken to succeed. -/
def js_debugger_wait_connection (ndebug : Bool) (os : Winsock) (address : List Char) :
    Run (Outcome Unit) :=
  let parsed := js_debugger_parse_sockaddr ndebug os.gethostbyname address
  match parsed.result with
  | .aborted => ⟨.aborted, parsed.calls⟩
  | .undefined => ⟨.undefined, parsed.calls⟩
  | .returned addr =>
    let server := os.socket
    let c1 := parsed.calls ++ [Call.socket AF_INET SOCK_STREAM 0]
    -- assert(server != INVALID_SOCKET)
    if ¬ ndebug ∧ server = INVALID_SOCKET then ⟨.aborted, c1⟩
    else
      -- assert(setsockopt(...) >= 0)
      let c2 := if ndebug then c1 else c1 ++ [Call.setsockopt server SOL_SOCKET SO_REUSEADDR 1]
      if ¬ ndebug ∧ os.setsockopt < 0 then ⟨.aborted, c2⟩
      else
        -- assert(bind(...) >= 0)
        let c3 := if ndebug then c2 else c2 ++ [Call.bind server addr]
        if ¬ ndebug ∧ os.bind < 0 then ⟨.aborted, c3⟩
        else
          let client := os.accept
          let c4 := c3 ++ [Call.listen server 1, Call.accept server, Call.closesocket server]
          -- assert(client != INVALID_SOCKET)
          if ¬ ndebug ∧ client = INVALID_SOCKET then ⟨.aborted, c4⟩
          else
            let data : js_transport_data := { handle := client }
            ⟨.returned (), c4 ++ [Call.malloc, attach_call data]⟩

/-! ## `quickjs.h`: values under strict NaN boxing

`JS_STRICT_NAN_BOXING` is defined whenever `_WIN32` is; a `JSValue` is then a
`uint64_t`, here a `Nat`. -/

/-- Tag enum of the strict NaN boxing layout. -/
def JS_TAG_UNINITIALIZED : Nat := 0
/-- Tag enum of the strict NaN boxing layout. -/
def JS_TAG_INT : Nat := 1
/-- Tag enum of the strict NaN boxing layout. -/
def JS_TAG_BOOL : Nat := 2
/-- Tag enum of the strict NaN boxing layout. -/
def JS_TAG_NULL : Nat := 3
/-- Tag enum of the strict NaN boxing layout. -/
def JS_TAG_UNDEFINED : Nat := 4
/-- Tag enum of the strict NaN boxing layout. -/
def JS_TAG_CATCH_OFFSET : Nat := 5
/-- Tag enum of the strict NaN boxing layout. -/
def JS_TAG_EXCEPTION : Nat := 6
/-- Tag enum of the strict NaN boxing layout. -/
def JS_TAG_FLOAT64 : Nat := 7
/-- Tag enum of the strict NaN boxing layout; from here on the tags carry a reference count. -/
def JS_TAG_OBJECT : Nat := 8
/-- Tag enum of the strict NaN boxing layout. -/
def JS_TAG_FUNCTION_BYTECODE : Nat := 9
/-- Tag enum of the strict NaN boxing layout. -/
def JS_TAG_MODULE : Nat := 10
/-- Tag enum of the strict NaN boxing layout. -/
def JS_TAG_STRING : Nat := 11
/-- Tag enum of the strict NaN boxing layout. -/
def JS_TAG_SYMBOL : Nat := 12
/-- Tag enum of the strict NaN boxing layout. -/
def JS_TAG_BIG_FLOAT : Nat := 13
/-- Tag enum of the strict NaN boxing layout. -/
def JS_TAG_BIG_INT : Nat := 14
/-- Tag enum of the strict NaN boxing layout. -/
def JS_TAG_BIG_DECIMAL : Nat := 15

/-- The macro `JS_VALUE_GET_TAG(v)`:
`((v) > 0xFFFFFFFFFFFFF) ? (unsigned)JS_TAG_FLOAT64 : (unsigned)((v) >> 48)`. -/
def JS_VALUE_GET_TAG (v : Nat) : Nat :=
  if v > 0xFFFFFFFFFFFFF then JS_TAG_FLOAT64 else (v >>> 48) % 4294967296

/-- The macro `JS_MKVAL(tag, val)`:
`((uint64_t)(0xF & tag) << 48) | (uint32_t)(val)`; the cast of `val` to
`uint32_t` is the reduction modulo `2^32`. -/
def JS_MKVAL (tag : Nat) (val : Int) : Nat :=
  ((0xF &&& tag) <<< 48) ||| (val % 4294967296).toNat

/-- The macro `JS_NAN`. -/
def JS_NAN : Nat := JS_MKVAL JS_TAG_FLOAT64 0

/-- The macro `JS_VALUE_HAS_REF_COUNT(v)`: `(JS_VALUE_GET_TAG(v) & 0xFFF8) == 0x8`. -/
def JS_VALUE_HAS_REF_COUNT (v : Nat) : Bool :=
  (JS_VALUE_GET_TAG v &&& 0xFFF8) == 0x8

/-- The special value `JS_NULL`. -/
def JS_NULL : Nat := JS_MKVAL JS_TAG_NULL 0
/-- The special value `JS_UNDEFINED`. -/
def JS_UNDEFINED : Nat := JS_MKVAL JS_TAG_UNDEFINED 0
/-- The special value `JS_FALSE`. -/
def JS_FALSE : Nat := JS_MKVAL JS_TAG_BOOL 0
/-- The special value `JS_TRUE`. -/
def JS_TRUE : Nat := JS_MKVAL JS_TAG_BOOL 1
/-- The special value `JS_EXCEPTION`. -/
def JS_EXCEPTION : Nat := JS_MKVAL JS_TAG_EXCEPTION 0
/-- The special value `JS_UNINITIALIZED`. -/
def JS_UNINITIALIZED : Nat := JS_MKVAL JS_TAG_UNINITIALIZED 0

/-- The C function `JS_IsBool` (a non-zero `JS_BOOL` is `true`). -/
def JS_IsBool (v : Nat) : Bool := JS_VALUE_GET_TAG v == JS_TAG_BOOL
/-- The C function `JS_IsNull`. -/
def JS_IsNull (v : Nat) : Bool := JS_VALUE_GET_TAG v == JS_TAG_NULL
/-- The C function `JS_IsUndefined`. -/
def JS_IsUndefined (v : Nat) : Bool := JS_VALUE_GET_TAG v == JS_TAG_UNDEFINED
/-- The C function `JS_IsException`. -/
def JS_IsException (v : Nat) : Bool := JS_VALUE_GET_TAG v == JS_TAG_EXCEPTION
/-- The C function `JS_IsUninitialized`. -/
def JS_IsUninitialized (v : Nat) : Bool := JS_VALUE_GET_TAG v == JS_TAG_UNINITIALIZED

/-- The macro `JS_VALUE_GET_INT(v)`: `(int)(v)`, the low 32 bits of the value
read as two's complement. -/
def JS_VALUE_GET_INT (v : Nat) : Int :=
  if v % 4294967296 < 2147483648 then ((v % 4294967296 : Nat) : Int)
  else ((v % 4294967296 : Nat) : Int) - 4294967296

/-- The macro `JS_VALUE_GET_PTR(v)` on a 64-bit target (`JS_PTR64`):
`(void *)((intptr_t)(v) & 0x0000FFFFFFFFFFFFull)`.  The conversion to
`intptr_t` and back to an unsigned 64-bit operand keeps the 64 bits. -/
def JS_VALUE_GET_PTR (v : Nat) : Nat :=
  v &&& 0x0000FFFFFFFFFFFF

/-- The macro `JS_MKPTR(tag, ptr)`:
`((uint64_t)(0xF & tag) << 48) | ((uint64_t)(ptr) & 0x0000FFFFFFFFFFFFull)`;
`ptr` is the value of a 64-bit pointer. -/
def JS_MKPTR (tag : Nat) (ptr : Nat) : Nat :=
  ((0xF &&& tag) <<< 48) ||| (ptr &&& 0x0000FFFFFFFFFFFF)

/-- The macro `JS_VALUE_IS_BOTH_INT(v1, v2)`:
`(JS_VALUE_GET_TAG(v1) | JS_VALUE_GET_TAG(v2)) == 0`.  It is defined once,
after the layout-specific part of the header, for all layouts. -/
def JS_VALUE_IS_BOTH_INT (v1 v2 : Nat) : Bool :=
  (JS_VALUE_GET_TAG v1 ||| JS_VALUE_GET_TAG v2) == 0

/-- The C function `JS_NewInt32(ctx, val)` (it does not use `ctx`). -/
def JS_NewInt32 (val : Int) : Nat := JS_MKVAL JS_TAG_INT val

/-! ## `quickjs-debugger.h`: the debugger state

The structs and the step constants are those of the header.  The functions
that work on them (`js_debugger_check`, `js_debugger_check_breakpoint`, the
handler of the set-breakpoints request) are declared there but defined in a
file that is not among the sources; they are modelled from the specification. -/

/-- The C struct `JSDebuggerFunctionInfo`: one `uint8_t` of `breakpoints` per
byte of the function's `byte_code_buf`, and the `uint32_t` stamp `dirty`. -/
structure JSDebuggerFunctionInfo where
  breakpoints : List Nat
  dirty : Nat
  last_line_num : Int
deriving DecidableEq, Repr

/-- The C struct `JSDebuggerLocation` (`filename` is a `JSAtom`). -/
structure JSDebuggerLocation where
  filename : Nat
  line : Int
  column : Int
deriving DecidableEq, Repr

/-- The constant `JS_DEBUGGER_STEP`. -/
def JS_DEBUGGER_STEP : Int := 1
/-- The constant `JS_DEBUGGER_STEP_IN`. -/
def JS_DEBUGGER_STEP_IN : Int := 2
/-- The constant `JS_DEBUGGER_STEP_OUT`. -/
def JS_DEBUGGER_STEP_OUT : Int := 3
/-- The constant `JS_DEBUGGER_STEP_CONTINUE`. -/
def JS_DEBUGGER_STEP_CONTINUE : Int := 4

/-- The C struct `JSDebuggerInfo`, restricted to the fields of the pause, the
breakpoint and the stepping state.  The `JSValue breakpoints` is read as the
specification describes it: a map from a file to its breakpoint lines.
`breakpoints_dirty_counter` is a `uint32_t`; `stepping = 0` is "no step". -/
structure JSDebuggerInfo where
  is_paused : Int
  breakpoints : Nat → List Int
  exception_breakpoint : Int
  breakpoints_dirty_counter : Nat
  stepping : Int
  step_over : JSDebuggerLocation
  step_depth : Int

/-- Modelled from the spec: the completion predicate of the Step Controller
(section 4.5), the stepping decision of `js_debugger_check`, whose definition
is not among the sources.  `loc` and `depth` are the current location and
call depth; `last_reported` is the last location reported to the client.
Step: `depth <= anchorDepth` and `loc != anchor`; StepIn: `loc != last
reported location`; StepOut: `depth < anchorDepth`; StepContinue: never. -/
def step_complete (info : JSDebuggerInfo) (last_reported loc : JSDebuggerLocation)
    (depth : Nat) : Bool :=
  if info.stepping = JS_DEBUGGER_STEP then
    decide ((depth : Int) ≤ info.step_depth) && decide (loc ≠ info.step_over)
  else if info.stepping = JS_DEBUGGER_STEP_IN then
    decide (loc ≠ last_reported)
  else if info.stepping = JS_DEBUGGER_STEP_OUT then
    decide ((depth : Int) < info.step_depth)
  else false

/-- Modelled from the spec: `js_debugger_check`, the check at an instrumentable
point of an attached session (`onInstrumentablePoint`, section 4.6), whose
definition is not among the sources.  It pauses iff a breakpoint bit is set at
the point, or the completion predicate holds, or the point follows a thrown
exception and the exception-breakpoint flag is set; when the completion
predicate holds the step state goes back to "no step" (section 4.5). -/
def js_debugger_check (info : JSDebuggerInfo) (at_breakpoint after_exception : Bool)
    (last_reported loc : JSDebuggerLocation) (depth : Nat) : JSDebuggerInfo :=
  let complete := step_complete info last_reported loc depth
  let pause := at_breakpoint || complete ||
    (after_exception && decide (info.exception_breakpoint ≠ 0))
  { info with
    stepping := if complete then 0 else info.stepping
    is_paused := if pause then 1 else info.is_paused }

/-- Modelled from the spec: `setBreakpoints(file, lines)` (section 4.4), the
handler of the set-breakpoints request, whose definition is not among the
sources: it replaces the line set of `file` and increments the dirty counter.
The counter is the `uint32_t` field of the header, so the increment is modulo
`2^32`. -/
def setBreakpoints (info : JSDebuggerInfo) (file : Nat) (lines : List Int) : JSDebuggerInfo :=
  { info with
    breakpoints := fun f => if f = file then lines else info.breakpoints f
    breakpoints_dirty_counter := (info.breakpoints_dirty_counter + 1) % 4294967296 }

/-- A sequence of set-breakpoints requests, handled one after the other. -/
def setBreakpointsAll (info : JSDebuggerInfo) (requests : List (Nat × List Int)) :
    JSDebuggerInfo :=
  requests.foldl (fun i r => setBreakpoints i r.1 r.2) info

/-- Modelled from the spec: the bitmap that `refreshCache` recomputes (section
4.4).  `code` has one entry per byte of the function's bytecode: the location
of the statement that begins at that offset, if one does.  The bit of an
offset is set iff a statement begins there and its line is among the
breakpoint lines of its file. -/
def breakpoint_bitmap (table : Nat → List Int) (code : List (Option JSDebuggerLocation)) :
    List Nat :=
  code.map fun entry =>
    match entry with
    | some loc => if loc.line ∈ table loc.filename then 1 else 0
    | none => 0

/-- What a call of `js_debugger_check_breakpoint` leaves behind: the value it
returns, the function's cache after the call, and whether the bitmap was
recomputed during the call. -/
structure BreakpointCheck where
  result : Int
  cache : JSDebuggerFunctionInfo
  recomputed : Bool
deriving DecidableEq, Repr

/-- Modelled from the spec: `js_debugger_check_breakpoint(ctx, current_dirty,
cur_pc)`, whose definition is not among the sources, as `refreshCache`
(section 4.4) followed by the lookup of the bit of `pc`.  If the cache stamp
equals `current_dirty` the cached bitmap is used unchanged; otherwise the
bitmap is recomputed from the table and stored, and the stamp is set to
`current_dirty`. -/
def js_debugger_check_breakpoint (table : Nat → List Int)
    (code : List (Option JSDebuggerLocation)) (cache : JSDebuggerFunctionInfo)
    (current_dirty : Nat) (pc : Nat) : BreakpointCheck :=
  if cache.dirty = current_dirty then
    ⟨(cache.breakpoints.getD pc 0 : Nat), cache, false⟩
  else
    let bitmap := breakpoint_bitmap table code
    ⟨(bitmap.getD pc 0 : Nat), { cache with breakpoints := bitmap, dirty := current_dirty }, true⟩

/-! ## Theorems: the transport callbacks -/

/-- C5: for every transport state, buffer, length `n` and `int` outcome `r` of
`recv`, `js_transport_read` returns `r` when the handle is valid, `n > 0`, the
buffer is non-null and `1 ≤ r ≤ n`, and a negative value in every other case;
so its result is non-negative exactly in the first case.  For every outcome
`recv` can deliver (a count `r ≥ 0`, or `SOCKET_ERROR` once `recv` is called)
it returns `r` exactly in the first case.  With an invalid handle, `n = 0` or a
null buffer it makes no call at all (in particular no `recv`), and every
non-negative result `k` satisfies `1 ≤ k ≤ n`. -/
theorem js_transport_read_contract (data : js_transport_data) (buffer n : Nat) (r : Int)
    (hr : INT_MIN ≤ r ∧ r ≤ INT_MAX) :
    ((data.handle ≠ INVALID_SOCKET ∧ 0 < n ∧ buffer ≠ NULL ∧ 1 ≤ r ∧ r ≤ n) →
        (js_transport_read data buffer n r).result = r) ∧
    (¬ (data.handle ≠ INVALID_SOCKET ∧ 0 < n ∧ buffer ≠ NULL ∧ 1 ≤ r ∧ r ≤ n) →
        (js_transport_read data buffer n r).result < 0) ∧
    (0 ≤ (js_transport_read data buffer n r).result ↔
        (data.handle ≠ INVALID_SOCKET ∧ 0 < n ∧ buffer ≠ NULL ∧ 1 ≤ r ∧ r ≤ n)) ∧
    (0 ≤ r → ((js_transport_read data buffer n r).result = r ↔
        (data.handle ≠ INVALID_SOCKET ∧ 0 < n ∧ buffer ≠ NULL ∧ 1 ≤ r ∧ r ≤ n))) ∧
    ((data.handle = INVALID_SOCKET ∨ n = 0 ∨ buffer = NULL) →
        (js_transport_read data buffer n r).calls = []) ∧
    (∀ k : Int, (js_transport_read data buffer n r).result = k → 0 ≤ k → 1 ≤ k ∧ k ≤ n) ∧
    ((data.handle ≠ INVALID_SOCKET ∧ 0 < n ∧ buffer ≠ NULL) → (r = SOCKET_ERROR ∨ 0 ≤ r) →
        ((js_transport_read data buffer n r).result = r ↔ (1 ≤ r ∧ r ≤ n))) := by
  obtain ⟨hlo, hhi⟩ := hr
  simp only [INT_MIN, INT_MAX] at hlo hhi
  unfold js_transport_read
  simp only [SOCKET_ERROR, size_t_of_int, NULL]
  split_ifs <;> simp_all <;> omega

/-- Witness for C5: a valid handle, a 10-byte request and `recv` delivering 3
bytes. -/
theorem js_transport_read_contract_witness :
    (INT_MIN ≤ 3 ∧ (3 : Int) ≤ INT_MAX) ∧ (js_transport_read ⟨5⟩ 4096 10 3).result = 3 :=
  ⟨by decide, (js_transport_read_contract ⟨5⟩ 4096 10 3 (by decide)).1 (by decide)⟩

/-- C6: take one call of `js_transport_read` for each of the five error kinds:
an invalid handle; a zero-length request; a null buffer; a failing `recv`
(`SOCKET_ERROR`); an orderly close by the peer (`recv` returns 0).  The five
results are negative and pairwise different. -/
theorem js_transport_read_error_kinds
    (d1 d2 d3 d4 d5 : js_transport_data) (b1 b2 b3 b4 b5 n1 n2 n3 n4 n5 : Nat)
    (r1 r2 r3 r4 r5 : Int)
    (h1 : d1.handle = INVALID_SOCKET)
    (h2 : d2.handle ≠ INVALID_SOCKET ∧ n2 = 0)
    (h3 : d3.handle ≠ INVALID_SOCKET ∧ n3 ≠ 0 ∧ b3 = NULL)
    (h4 : d4.handle ≠ INVALID_SOCKET ∧ n4 ≠ 0 ∧ b4 ≠ NULL ∧ r4 = SOCKET_ERROR)
    (h5 : d5.handle ≠ INVALID_SOCKET ∧ n5 ≠ 0 ∧ b5 ≠ NULL ∧ r5 = 0) :
    (∀ x ∈ [(js_transport_read d1 b1 n1 r1).result, (js_transport_read d2 b2 n2 r2).result,
             (js_transport_read d3 b3 n3 r3).result, (js_transport_read d4 b4 n4 r4).result,
             (js_transport_read d5 b5 n5 r5).result], x < 0) ∧
    List.Pairwise (fun x y => x ≠ y)
      [(js_transport_read d1 b1 n1 r1).result, (js_transport_read d2 b2 n2 r2).result,
       (js_transport_read d3 b3 n3 r3).result, (js_transport_read d4 b4 n4 r4).result,
       (js_transport_read d5 b5 n5 r5).result] := by
  have e1 : (js_transport_read d1 b1 n1 r1).result = -1 := by
    simp [js_transport_read, h1]
  have e2 : (js_transport_read d2 b2 n2 r2).result = -2 := by
    simp [js_transport_read, h2.1, h2.2]
  have e3 : (js_transport_read d3 b3 n3 r3).result = -3 := by
    simp [js_transport_read, h3.1, h3.2.1, h3.2.2]
  have e4 : (js_transport_read d4 b4 n4 r4).result = -4 := by
    simp [js_transport_read, h4.1, h4.2.1, h4.2.2.1, h4.2.2.2]
  have e5 : (js_transport_read d5 b5 n5 r5).result = -5 := by
    simp [js_transport_read, h5.1, h5.2.1, h5.2.2.1, h5.2.2.2, SOCKET_ERROR]
  rw [e1, e2, e3, e4, e5]
  decide

/-- Witness for C6: the five error kinds on concrete calls. -/
theorem js_transport_read_error_kinds_witness :
    (∀ x ∈ [(js_transport_read ⟨INVALID_SOCKET⟩ 4096 10 3).result,
             (js_transport_read ⟨5⟩ 4096 0 3).result,
             (js_transport_read ⟨5⟩ NULL 10 3).result,
             (js_transport_read ⟨5⟩ 4096 10 SOCKET_ERROR).result,
             (js_transport_read ⟨5⟩ 4096 10 0).result], x < 0) ∧
    List.Pairwise (fun x y => x ≠ y)
      [(js_transport_read ⟨INVALID_SOCKET⟩ 4096 10 3).result,
       (js_transport_read ⟨5⟩ 4096 0 3).result,
       (js_transport_read ⟨5⟩ NULL 10 3).result,
       (js_transport_read ⟨5⟩ 4096 10 SOCKET_ERROR).result,
       (js_transport_read ⟨5⟩ 4096 10 0).result] :=
  js_transport_read_error_kinds ⟨INVALID_SOCKET⟩ ⟨5⟩ ⟨5⟩ ⟨5⟩ ⟨5⟩ 4096 4096 NULL 4096 4096
    10 0 10 10 10 3 3 3 SOCKET_ERROR 0
    (by decide) (by decide) (by decide) (by decide) (by decide)

/-- C7: for every transport state, buffer, length `n` and `int` outcome `r` of
`send`, `js_transport_write` returns `r` when the handle is valid, `n > 0`, the
buffer is non-null and `1 ≤ r ≤ n` (so a short send `r < n` is returned as that
count), and a negative value in every other case; so its result is
non-negative exactly in the first case.  For every outcome `send` can deliver
(a count `r ≥ 0`, or `SOCKET_ERROR` once `send` is called) it returns `r`
exactly in the first case.  With an invalid handle, `n = 0` or a null buffer it
makes no call at all; otherwise it calls `send` exactly once, whatever `send`
returns. -/
theorem js_transport_write_contract (data : js_transport_data) (buffer n : Nat) (r : Int)
    (hr : INT_MIN ≤ r ∧ r ≤ INT_MAX) :
    ((data.handle ≠ INVALID_SOCKET ∧ 0 < n ∧ buffer ≠ NULL ∧ 1 ≤ r ∧ r ≤ n) →
        (js_transport_write data buffer n r).result = r) ∧
    (¬ (data.handle ≠ INVALID_SOCKET ∧ 0 < n ∧ buffer ≠ NULL ∧ 1 ≤ r ∧ r ≤ n) →
        (js_transport_write data buffer n r).result < 0) ∧
    (0 ≤ (js_transport_write data buffer n r).result ↔
        (data.handle ≠ INVALID_SOCKET ∧ 0 < n ∧ buffer ≠ NULL ∧ 1 ≤ r ∧ r ≤ n)) ∧
    (0 ≤ r → ((js_transport_write data buffer n r).result = r ↔
        (data.handle ≠ INVALID_SOCKET ∧ 0 < n ∧ buffer ≠ NULL ∧ 1 ≤ r ∧ r ≤ n))) ∧
    ((data.handle = INVALID_SOCKET ∨ n = 0 ∨ buffer = NULL) →
        (js_transport_write data buffer n r).calls = []) ∧
    ((data.handle ≠ INVALID_SOCKET ∧ 0 < n ∧ buffer ≠ NULL) →
        (js_transport_write data buffer n r).calls =
          [Call.send data.handle buffer (int_of_size_t n) 0]) ∧
    ((data.handle ≠ INVALID_SOCKET ∧ 0 < n ∧ buffer ≠ NULL) → (r = SOCKET_ERROR ∨ 0 ≤ r) →
        ((js_transport_write data buffer n r).result = r ↔ (1 ≤ r ∧ r ≤ n))) := by
  obtain ⟨hlo, hhi⟩ := hr
  simp only [INT_MIN, INT_MAX] at hlo hhi
  unfold js_transport_write
  simp only [SOCKET_ERROR, size_t_of_int, NULL]
  split_ifs <;> simp_all <;> omega

/-- Witness for C7: a valid handle, a 10-byte request and a short send of 3
bytes. -/
theorem js_transport_write_contract_witness :
    (INT_MIN ≤ 3 ∧ (3 : Int) ≤ INT_MAX) ∧ (js_transport_write ⟨5⟩ 4096 10 3).result = 3 :=
  ⟨by decide, (js_transport_write_contract ⟨5⟩ 4096 10 3 (by decide)).1 (by decide)⟩

/-- C8, counterexample: on a valid transport with a 10-byte request, a failing
`send` (it returns `-1`) and a `send` that returns 0 give the same result `-4`. -/
theorem js_transport_write_failure_and_close_coincide :
    (js_transport_write ⟨5⟩ 4096 10 (-1)).result = -4 ∧
    (js_transport_write ⟨5⟩ 4096 10 0).result = -4 := by
  decide

/-- C8, amended: take one call of `js_transport_write` for each of: an invalid
handle; a zero-length request; a null buffer; a `send` that returns a negative
value; a `send` that returns 0.  The first four results are negative and
pairwise different, and the fifth result equals the fourth: a `send` that
returns 0 is reported like a failing `send`. -/
theorem js_transport_write_error_kinds
    (d1 d2 d3 d4 d5 : js_transport_data) (b1 b2 b3 b4 b5 n1 n2 n3 n4 n5 : Nat)
    (r1 r2 r3 r4 r5 : Int)
    (h1 : d1.handle = INVALID_SOCKET)
    (h2 : d2.handle ≠ INVALID_SOCKET ∧ n2 = 0)
    (h3 : d3.handle ≠ INVALID_SOCKET ∧ n3 ≠ 0 ∧ b3 = NULL)
    (h4 : d4.handle ≠ INVALID_SOCKET ∧ n4 ≠ 0 ∧ b4 ≠ NULL ∧ r4 < 0)
    (h5 : d5.handle ≠ INVALID_SOCKET ∧ n5 ≠ 0 ∧ b5 ≠ NULL ∧ r5 = 0) :
    (∀ x ∈ [(js_transport_write d1 b1 n1 r1).result, (js_transport_write d2 b2 n2 r2).result,
             (js_transport_write d3 b3 n3 r3).result, (js_transport_write d4 b4 n4 r4).result],
        x < 0) ∧
    List.Pairwise (fun x y => x ≠ y)
      [(js_transport_write d1 b1 n1 r1).result, (js_transport_write d2 b2 n2 r2).result,
       (js_transport_write d3 b3 n3 r3).result, (js_transport_write d4 b4 n4 r4).result] ∧
    (js_transport_write d5 b5 n5 r5).result = (js_transport_write d4 b4 n4 r4).result := by
  have e1 : (js_transport_write d1 b1 n1 r1).result = -1 := by
    simp [js_transport_write, h1]
  have e2 : (js_transport_write d2 b2 n2 r2).result = -2 := by
    simp [js_transport_write, h2.1, h2.2]
  have e3 : (js_transport_write d3 b3 n3 r3).result = -3 := by
    simp [js_transport_write, h3.1, h3.2.1, h3.2.2]
  have e4 : (js_transport_write d4 b4 n4 r4).result = -4 := by
    have h : r4 ≤ 0 := by omega
    simp [js_transport_write, h4.1, h4.2.1, h4.2.2.1, h]
  have e5 : (js_transport_write d5 b5 n5 r5).result = -4 := by
    simp [js_transport_write, h5.1, h5.2.1, h5.2.2.1, h5.2.2.2]
  rw [e1, e2, e3, e4, e5]
  decide

/-- Witness for C8, amended: the five calls on concrete inputs. -/
theorem js_transport_write_error_kinds_witness :
    (∀ x ∈ [(js_transport_write ⟨INVALID_SOCKET⟩ 4096 10 3).result,
             (js_transport_write ⟨5⟩ 4096 0 3).result,
             (js_transport_write ⟨5⟩ NULL 10 3).result,
             (js_transport_write ⟨5⟩ 4096 10 (-1)).result], x < 0) ∧
    List.Pairwise (fun x y => x ≠ y)
      [(js_transport_write ⟨INVALID_SOCKET⟩ 4096 10 3).result,
       (js_transport_write ⟨5⟩ 4096 0 3).result,
       (js_transport_write ⟨5⟩ NULL 10 3).result,
       (js_transport_write ⟨5⟩ 4096 10 (-1)).result] ∧
    (js_transport_write ⟨5⟩ 4096 10 0).result = (js_transport_write ⟨5⟩ 4096 10 (-1)).result :=
  js_transport_write_error_kinds ⟨INVALID_SOCKET⟩ ⟨5⟩ ⟨5⟩ ⟨5⟩ ⟨5⟩ 4096 4096 NULL 4096 4096
    10 0 10 10 10 3 3 3 (-1) 0
    (by decide) (by decide) (by decide) (by decide) (by decide)

/-- C9: for every transport state and every outcome `rc` of the poll,
`js_transport_peek` returns 0 exactly when the handle is valid and `rc = 0`,
1 exactly when the handle is valid and `rc = 1`, and a negative value exactly
when the handle is invalid, the poll fails (`rc < 0`) or reports more than one
descriptor (`rc > 1`); the result is always one of -3, -2, -1, 0, 1. -/
theorem js_transport_peek_result (data : js_transport_data) (rc : Int) :
    ((js_transport_peek data rc).result = 0 ↔ (data.handle ≠ INVALID_SOCKET ∧ rc = 0)) ∧
    ((js_transport_peek data rc).result = 1 ↔ (data.handle ≠ INVALID_SOCKET ∧ rc = 1)) ∧
    ((js_transport_peek data rc).result < 0 ↔
        (data.handle = INVALID_SOCKET ∨ rc < 0 ∨ 1 < rc)) ∧
    (js_transport_peek data rc).result ∈ [(-3 : Int), -2, -1, 0, 1] := by
  unfold js_transport_peek
  dsimp only
  split_ifs with h1 h2 h3 h4
  · simp [h1]
  · simp [h1]; omega
  · simp [h1]; omega
  · simp [h1, h4]
  · have h5 : rc = 1 := by omega
    simp [h1, h5]

/-- C10: on every call `js_transport_peek` makes at most one call, and a call
it makes is `WSAPoll` on the one-entry array holding the transport socket
(waiting for `POLLIN`), with `nfds = 1` and timeout 0; it never calls `recv`,
`send` or `accept`. -/
theorem js_transport_peek_nonblocking (data : js_transport_data) (rc : Int) :
    (js_transport_peek data rc).calls.length ≤ 1 ∧
    (∀ c ∈ (js_transport_peek data rc).calls,
        c = Call.WSAPoll [WSAPOLLFD.mk data.handle POLLIN 0] 1 0) ∧
    (∀ c ∈ (js_transport_peek data rc).calls,
        (∀ s b l f, c ≠ Call.recv s b l f) ∧ (∀ s b l f, c ≠ Call.send s b l f) ∧
        (∀ s, c ≠ Call.accept s)) := by
  unfold js_transport_peek
  dsimp only
  split_ifs <;> simp

/-! ## Theorems: closing a transport and setting up a connection -/

/-- C1, the code at the failing input: closing the transport with handle 5
closes the socket, stores handle 0 (not `INVALID_SOCKET`), frees the block and
calls `WSACleanup`; a second close then finds a handle different from
`INVALID_SOCKET` and does all of it again: `closesocket(0)`, `free`, `WSACleanup`. -/
theorem js_transport_close_twice_repeats :
    (js_transport_close ⟨5⟩).calls = [Call.closesocket 5, Call.free, Call.WSACleanup] ∧
    (js_transport_close ⟨5⟩).result = ⟨0⟩ ∧
    (js_transport_close ⟨5⟩).result.handle ≠ INVALID_SOCKET ∧
    (js_transport_close (js_transport_close ⟨5⟩).result).calls =
      [Call.closesocket 0, Call.free, Call.WSACleanup] := by
  decide

/-- C2, the code at failing inputs, whatever the sockets answer.  Compiled
with assertions, `js_debugger_connect` ends in `abort()` for an address without
`':'`, for a port text that is zero or not a number, and for a host that does
not resolve.  Compiled with `NDEBUG`, it returns for the port text `0` after
calling `js_debugger_attach`. -/
theorem js_debugger_connect_unparsable_address :
    (js_debugger_connect false ⟨fun _ => some ⟨[16777343]⟩, 7, 0, 0, 0, 8⟩
        "localhost".toList).result = Outcome.aborted ∧
    (js_debugger_connect false ⟨fun _ => some ⟨[16777343]⟩, 7, 0, 0, 0, 8⟩
        "localhost:0".toList).result = Outcome.aborted ∧
    (js_debugger_connect false ⟨fun _ => some ⟨[16777343]⟩, 7, 0, 0, 0, 8⟩
        "localhost:http".toList).result = Outcome.aborted ∧
    (js_debugger_connect false ⟨fun _ => none, 7, 0, 0, 0, 8⟩
        "no.such.host:9229".toList).result = Outcome.aborted ∧
    (js_debugger_connect true ⟨fun _ => some ⟨[16777343]⟩, 7, 0, 0, 0, 8⟩
        "localhost:0".toList).result = Outcome.returned () ∧
    attach_call ⟨7⟩ ∈ (js_debugger_connect true ⟨fun _ => some ⟨[16777343]⟩, 7, 0, 0, 0, 8⟩
        "localhost:0".toList).calls := by
  decide

/-- C3, the code at the failing input: with a well-formed address that
resolves, `socket` returning handle 7 and `connect` failing with
`SOCKET_ERROR`, `js_debugger_connect` (in both build configurations) goes on
to allocate the transport data and to call `js_debugger_attach` on handle 7. -/
theorem js_debugger_connect_refused_still_attaches (ndebug : Bool) :
    (js_debugger_connect ndebug ⟨fun _ => some ⟨[16777343]⟩, 7, SOCKET_ERROR, 0, 0, 8⟩
        "127.0.0.1:9229".toList).result = Outcome.returned () ∧
    (js_debugger_connect ndebug ⟨fun _ => some ⟨[16777343]⟩, 7, SOCKET_ERROR, 0, 0, 8⟩
        "127.0.0.1:9229".toList).calls =
      [Call.WSAStartup 514, Call.gethostbyname "127.0.0.1".toList,
       Call.socket AF_INET SOCK_STREAM 0,
       Call.connect 7 ⟨AF_INET, htons 9229, 16777343⟩,
       Call.malloc, attach_call ⟨7⟩] := by
  cases ndebug <;> decide

/-- C4, the code at failing inputs, for a well-formed address that resolves.
Compiled with assertions, `js_debugger_wait_connection` ends in `abort()` when
`socket` returns `INVALID_SOCKET`, when `bind` fails, and when `accept` returns
`INVALID_SOCKET`.  Compiled with `NDEBUG`, it returns after calling
`js_debugger_attach` on the handle `INVALID_SOCKET` when `accept` fails. -/
theorem js_debugger_wait_connection_socket_failures :
    (js_debugger_wait_connection false
        ⟨fun _ => some ⟨[16777343]⟩, INVALID_SOCKET, 0, 0, 0, 8⟩
        "127.0.0.1:9229".toList).result = Outcome.aborted ∧
    (js_debugger_wait_connection false
        ⟨fun _ => some ⟨[16777343]⟩, 7, 0, 0, SOCKET_ERROR, 8⟩
        "127.0.0.1:9229".toList).result = Outcome.aborted ∧
    (js_debugger_wait_connection false
        ⟨fun _ => some ⟨[16777343]⟩, 7, 0, 0, 0, INVALID_SOCKET⟩
        "127.0.0.1:9229".toList).result = Outcome.aborted ∧
    (js_debugger_wait_connection true
        ⟨fun _ => some ⟨[16777343]⟩, 7, 0, 0, 0, INVALID_SOCKET⟩
        "127.0.0.1:9229".toList).result = Outcome.returned () ∧
    attach_call ⟨INVALID_SOCKET⟩ ∈ (js_debugger_wait_connection true
        ⟨fun _ => some ⟨[16777343]⟩, 7, 0, 0, 0, INVALID_SOCKET⟩
        "127.0.0.1:9229".toList).calls := by
  decide

/-! ## Theorems: values under strict NaN boxing -/

/-- For a tag below 16 the two fields that `JS_MKVAL` joins do not overlap. -/
theorem JS_MKVAL_eq_add (t : Nat) (x : Int) (ht : t ≤ 15) :
    JS_MKVAL t x = 281474976710656 * t + (x % 4294967296).toNat := by
  have hy : (x % 4294967296).toNat < 2 ^ 48 := by omega
  have hand : 0xF &&& t = t := by
    rw [Nat.and_comm]
    exact Nat.and_pow_two_sub_one_of_lt_two_pow (n := 4) (by omega)
  have hor := Nat.mul_add_lt_is_or hy t
  unfold JS_MKVAL
  rw [hand, Nat.shiftLeft_eq, Nat.mul_comm t (2 ^ 48), ← hor]

/-- The tag read by `JS_VALUE_GET_TAG` is one of the sixteen tags. -/
theorem JS_VALUE_GET_TAG_le (v : Nat) : JS_VALUE_GET_TAG v ≤ 15 := by
  unfold JS_VALUE_GET_TAG
  split_ifs with h
  · simp [JS_TAG_FLOAT64]
  · rw [Nat.shiftRight_eq_div_pow]
    omega

/-- C18: under strict NaN boxing, `JS_VALUE_GET_TAG (JS_MKVAL t x) = t` for
every tag `t` in 0..15 and every payload `x` (which `JS_MKVAL` casts to 32
bits); and for every value `v` the tag read is in 0..15 and is
`JS_TAG_FLOAT64` whenever the bits of `v` above the low 52, the NaN-marker
field of a 64-bit value, are not all zero. -/
theorem JS_VALUE_GET_TAG_strict (t : Nat) (x : Int) (v : Nat) (ht : t ≤ 15) :
    JS_VALUE_GET_TAG (JS_MKVAL t x) = t ∧
    JS_VALUE_GET_TAG v ≤ 15 ∧
    (v >>> 52 ≠ 0 → JS_VALUE_GET_TAG v = JS_TAG_FLOAT64) := by
  refine ⟨?_, JS_VALUE_GET_TAG_le v, ?_⟩
  · rw [JS_MKVAL_eq_add t x ht]
    unfold JS_VALUE_GET_TAG
    rw [Nat.shiftRight_eq_div_pow]
    split_ifs with h <;> omega
  · intro hv
    rw [Nat.shiftRight_eq_div_pow] at hv
    unfold JS_VALUE_GET_TAG
    split_ifs with h
    · rfl
    · omega

/-- Witness for C18: the tag of the integer value `-1` and of a boxed double. -/
theorem JS_VALUE_GET_TAG_strict_witness :
    JS_TAG_INT ≤ 15 ∧
    JS_VALUE_GET_TAG (JS_MKVAL JS_TAG_INT (-1)) = JS_TAG_INT ∧
    JS_VALUE_GET_TAG 13830554455654793216 = JS_TAG_FLOAT64 :=
  ⟨by decide,
   (JS_VALUE_GET_TAG_strict JS_TAG_INT (-1) 13830554455654793216 (by decide)).1,
   (JS_VALUE_GET_TAG_strict JS_TAG_INT (-1) 13830554455654793216 (by decide)).2.2 (by decide)⟩

/-- C19: under strict NaN boxing `JS_VALUE_HAS_REF_COUNT(v)` holds iff the tag
of `v` is one of the eight tags `JS_TAG_OBJECT` .. `JS_TAG_BIG_DECIMAL`; it is
false for every value whose tag is that of an int, a bool, null, undefined, an
exception, uninitialized or a float64. -/
theorem JS_VALUE_HAS_REF_COUNT_iff (v : Nat) :
    (JS_VALUE_HAS_REF_COUNT v = true ↔
      JS_VALUE_GET_TAG v ∈ [JS_TAG_OBJECT, JS_TAG_FUNCTION_BYTECODE, JS_TAG_MODULE,
        JS_TAG_STRING, JS_TAG_SYMBOL, JS_TAG_BIG_FLOAT, JS_TAG_BIG_INT, JS_TAG_BIG_DECIMAL]) ∧
    (JS_VALUE_HAS_REF_COUNT v = true ↔
      (JS_TAG_OBJECT ≤ JS_VALUE_GET_TAG v ∧ JS_VALUE_GET_TAG v ≤ JS_TAG_BIG_DECIMAL)) ∧
    (JS_VALUE_GET_TAG v ∈ [JS_TAG_INT, JS_TAG_BOOL, JS_TAG_NULL, JS_TAG_UNDEFINED,
        JS_TAG_EXCEPTION, JS_TAG_UNINITIALIZED, JS_TAG_FLOAT64] →
      JS_VALUE_HAS_REF_COUNT v = false) := by
  have h := JS_VALUE_GET_TAG_le v
  unfold JS_VALUE_HAS_REF_COUNT
  generalize JS_VALUE_GET_TAG v = tag at h
  interval_cases tag <;> decide

/-- Witness for C19: an object value has a reference count, the integer value
`-1` has none. -/
theorem JS_VALUE_HAS_REF_COUNT_iff_witness :
    JS_VALUE_HAS_REF_COUNT 2251799813685248 = true ∧
    JS_VALUE_HAS_REF_COUNT (JS_MKVAL JS_TAG_INT (-1)) = false :=
  ⟨(JS_VALUE_HAS_REF_COUNT_iff 2251799813685248).1.2 (by decide),
   (JS_VALUE_HAS_REF_COUNT_iff (JS_MKVAL JS_TAG_INT (-1))).2.2 (by decide)⟩

/-- C20: under strict NaN boxing `JS_UNINITIALIZED` is the value 0; the seven
special values `JS_UNINITIALIZED`, `JS_NULL`, `JS_UNDEFINED`, `JS_FALSE`,
`JS_TRUE`, `JS_EXCEPTION`, `JS_NAN` are pairwise distinct; and each of
`JS_IsNull`, `JS_IsUndefined`, `JS_IsBool`, `JS_IsException`,
`JS_IsUninitialized` accepts its own constant (for `JS_IsBool`: `JS_FALSE` and
`JS_TRUE`) and rejects the others. -/
theorem special_values_distinct :
    JS_UNINITIALIZED = 0 ∧
    List.Pairwise (fun a b => a ≠ b)
      [JS_UNINITIALIZED, JS_NULL, JS_UNDEFINED, JS_FALSE, JS_TRUE, JS_EXCEPTION, JS_NAN] ∧
    [JS_UNINITIALIZED, JS_NULL, JS_UNDEFINED, JS_FALSE, JS_TRUE, JS_EXCEPTION, JS_NAN].map
      JS_IsNull = [false, true, false, false, false, false, false] ∧
    [JS_UNINITIALIZED, JS_NULL, JS_UNDEFINED, JS_FALSE, JS_TRUE, JS_EXCEPTION, JS_NAN].map
      JS_IsUndefined = [false, false, true, false, false, false, false] ∧
    [JS_UNINITIALIZED, JS_NULL, JS_UNDEFINED, JS_FALSE, JS_TRUE, JS_EXCEPTION, JS_NAN].map
      JS_IsBool = [false, false, false, true, true, false, false] ∧
    [JS_UNINITIALIZED, JS_NULL, JS_UNDEFINED, JS_FALSE, JS_TRUE, JS_EXCEPTION, JS_NAN].map
      JS_IsException = [false, false, false, false, false, true, false] ∧
    [JS_UNINITIALIZED, JS_NULL, JS_UNDEFINED, JS_FALSE, JS_TRUE, JS_EXCEPTION, JS_NAN].map
      JS_IsUninitialized = [true, false, false, false, false, false, false] := by
  decide

/-! ## Theorems: stepping and the breakpoint cache -/

/-- C14: with `stepping = JS_DEBUGGER_STEP`, the check at an instrumentable
point completes the step (the completion predicate holds, and
`js_debugger_check` puts `stepping` back to 0 and pauses) iff the current depth
is `<= step_depth` and the current location differs from `step_over`.  With
anchor depth 2 and an anchor on line 10 it does not complete at any point at
depth 3, and it completes at depth 2 on line 11. -/
theorem step_over_completion (info : JSDebuggerInfo) (at_breakpoint after_exception : Bool)
    (last_reported loc : JSDebuggerLocation) (depth : Nat)
    (hs : info.stepping = JS_DEBUGGER_STEP) :
    (step_complete info last_reported loc depth = true ↔
      ((depth : Int) ≤ info.step_depth ∧ loc ≠ info.step_over)) ∧
    ((js_debugger_check info at_breakpoint after_exception last_reported loc depth).stepping = 0 ↔
      ((depth : Int) ≤ info.step_depth ∧ loc ≠ info.step_over)) ∧
    ((js_debugger_check info at_breakpoint after_exception last_reported loc depth).stepping = 0 →
      (js_debugger_check info at_breakpoint after_exception last_reported loc depth).is_paused = 1) ∧
    (info.step_depth = 2 → info.step_over.line = 10 →
      step_complete info last_reported loc 3 = false ∧
      (loc.line = 11 → step_complete info last_reported loc 2 = true)) := by
  have hc : step_complete info last_reported loc depth = true ↔
      ((depth : Int) ≤ info.step_depth ∧ loc ≠ info.step_over) := by
    simp [step_complete, hs]
  refine ⟨hc, ?_, ?_, ?_⟩
  · rw [← hc]
    cases h : step_complete info last_reported loc depth <;>
      simp [js_debugger_check, h, hs, JS_DEBUGGER_STEP]
  · cases h : step_complete info last_reported loc depth <;>
      simp [js_debugger_check, h, hs, JS_DEBUGGER_STEP]
  · intro hd hl
    refine ⟨?_, ?_⟩
    · simp [step_complete, hs, hd]
    · intro h11
      have hne : loc ≠ info.step_over := by
        intro heq
        rw [heq, hl] at h11
        omega
      simp [step_complete, hs, hd, hne]

/-- Witness for C14: anchor depth 2, anchor (file 7, line 10), current point at
depth 2 on line 11 of file 7. -/
theorem step_over_completion_witness :
    step_complete ⟨0, fun _ => [], 0, 1, JS_DEBUGGER_STEP, ⟨7, 10, 0⟩, 2⟩
      ⟨7, 10, 0⟩ ⟨7, 11, 0⟩ 2 = true :=
  ((step_over_completion ⟨0, fun _ => [], 0, 1, JS_DEBUGGER_STEP, ⟨7, 10, 0⟩, 2⟩
      false false ⟨7, 10, 0⟩ ⟨7, 11, 0⟩ 2 rfl).2.2.2 rfl rfl).2 rfl

/-- C15: with `stepping = JS_DEBUGGER_STEP_OUT`, the check at an
instrumentable point completes the step iff the current depth is strictly
less than `step_depth`, whatever the location.  With anchor depth 3, in a run
of points whose depths stay at 3 or more until a point of depth 2 is reached,
the first point at which the step completes is that point. -/
theorem step_out_completion (info : JSDebuggerInfo) (at_breakpoint after_exception : Bool)
    (last_reported loc : JSDebuggerLocation) (depth : Nat)
    (before after : List (JSDebuggerLocation × Nat))
    (hs : info.stepping = JS_DEBUGGER_STEP_OUT) :
    (step_complete info last_reported loc depth = true ↔ (depth : Int) < info.step_depth) ∧
    ((js_debugger_check info at_breakpoint after_exception last_reported loc depth).stepping = 0 ↔
      (depth : Int) < info.step_depth) ∧
    (info.step_depth = 3 → (∀ q ∈ before, 3 ≤ q.2) →
      (before ++ (loc, 2) :: after).findIdx
        (fun q => step_complete info last_reported q.1 q.2) = before.length) := by
  have hc : ∀ (l : JSDebuggerLocation) (d : Nat),
      step_complete info last_reported l d = true ↔ (d : Int) < info.step_depth := by
    intro l d
    simp [step_complete, hs, JS_DEBUGGER_STEP_OUT, JS_DEBUGGER_STEP, JS_DEBUGGER_STEP_IN]
  refine ⟨hc loc depth, ?_, ?_⟩
  · rw [← hc loc depth]
    cases h : step_complete info last_reported loc depth <;>
      simp [js_debugger_check, h, hs, JS_DEBUGGER_STEP_OUT]
  · intro hd hb
    induction before with
    | nil =>
      have h2 : step_complete info last_reported loc 2 = true := by
        rw [hc, hd]; decide
      simp [List.findIdx_cons, h2]
    | cons q qs ih =>
      have hq : step_complete info last_reported q.1 q.2 = false := by
        have h3 : 3 ≤ q.2 := hb q (List.mem_cons_self _ _)
        have hn : ¬ (step_complete info last_reported q.1 q.2 = true) := by
          rw [hc, hd]; omega
        simpa using hn
      have ih2 := ih (fun r hr => hb r (List.mem_cons_of_mem _ hr))
      simp [List.findIdx_cons, hq, ih2]

/-- Witness for C15: anchor depth 3; two points at depth 3 and 4, then a point
at depth 2: the step completes at index 2. -/
theorem step_out_completion_witness :
    [((⟨7, 20, 0⟩ : JSDebuggerLocation), 3), (⟨7, 30, 0⟩, 4), (⟨7, 11, 0⟩, 2),
        (⟨7, 12, 0⟩, 2)].findIdx
      (fun q => step_complete ⟨0, fun _ => [], 0, 1, JS_DEBUGGER_STEP_OUT, ⟨7, 20, 0⟩, 3⟩
        ⟨7, 20, 0⟩ q.1 q.2) = 2 :=
  (step_out_completion ⟨0, fun _ => [], 0, 1, JS_DEBUGGER_STEP_OUT, ⟨7, 20, 0⟩, 3⟩
      false false ⟨7, 20, 0⟩ ⟨7, 11, 0⟩ 2 [(⟨7, 20, 0⟩, 3), (⟨7, 30, 0⟩, 4)] [(⟨7, 12, 0⟩, 2)]
      rfl).2.2 rfl (by decide)

/-- C16: when the stamp `dirty` of a function's cache equals the current
counter, `js_debugger_check_breakpoint` leaves the cache (bitmap and stamp)
unchanged and recomputes nothing; and of two checks with the same table and
counter, the second always finds the cache the first one left, recomputes
nothing and sees the same bitmap. -/
theorem breakpoint_cache_hit (table : Nat → List Int) (code : List (Option JSDebuggerLocation))
    (cache : JSDebuggerFunctionInfo) (current_dirty pc pc2 : Nat) :
    (cache.dirty = current_dirty →
      (js_debugger_check_breakpoint table code cache current_dirty pc).cache = cache ∧
      (js_debugger_check_breakpoint table code cache current_dirty pc).recomputed = false) ∧
    (js_debugger_check_breakpoint table code
        (js_debugger_check_breakpoint table code cache current_dirty pc).cache
        current_dirty pc2).recomputed = false ∧
    (js_debugger_check_breakpoint table code
        (js_debugger_check_breakpoint table code cache current_dirty pc).cache
        current_dirty pc2).cache =
      (js_debugger_check_breakpoint table code cache current_dirty pc).cache ∧
    (js_debugger_check_breakpoint table code
        (js_debugger_check_breakpoint table code cache current_dirty pc).cache
        current_dirty pc2).cache.breakpoints =
      (js_debugger_check_breakpoint table code cache current_dirty pc).cache.breakpoints := by
  have hstamp : (js_debugger_check_breakpoint table code cache current_dirty pc).cache.dirty =
      current_dirty := by
    unfold js_debugger_check_breakpoint
    split_ifs with h <;> simp [h]
  have hhit : ∀ c : JSDebuggerFunctionInfo, c.dirty = current_dirty → ∀ q : Nat,
      (js_debugger_check_breakpoint table code c current_dirty q).cache = c ∧
      (js_debugger_check_breakpoint table code c current_dirty q).recomputed = false := by
    intro c hc q
    simp [js_debugger_check_breakpoint, hc]
  refine ⟨fun h => hhit cache h pc, (hhit _ hstamp pc2).2, (hhit _ hstamp pc2).1, ?_⟩
  rw [(hhit _ hstamp pc2).1]

/-- Witness for C16: a cache stamped 4 checked at counter 4. -/
theorem breakpoint_cache_hit_witness :
    (js_debugger_check_breakpoint (fun _ => [5]) [some ⟨1, 5, 0⟩, none] ⟨[1, 0], 4, 5⟩ 4 0).cache =
      ⟨[1, 0], 4, 5⟩ ∧
    (js_debugger_check_breakpoint (fun _ => [5]) [some ⟨1, 5, 0⟩, none] ⟨[1, 0], 4, 5⟩ 4
      0).recomputed = false :=
  (breakpoint_cache_hit (fun _ => [5]) [some ⟨1, 5, 0⟩, none] ⟨[1, 0], 4, 5⟩ 4 0 0).1 rfl

/-- The counter after a sequence of set-breakpoints requests that does not
take it past `2^32 - 1`. -/
theorem setBreakpointsAll_counter (requests : List (Nat × List Int)) (info : JSDebuggerInfo)
    (h : info.breakpoints_dirty_counter + requests.length < 4294967296) :
    (setBreakpointsAll info requests).breakpoints_dirty_counter =
      info.breakpoints_dirty_counter + requests.length := by
  induction requests generalizing info with
  | nil => simp [setBreakpointsAll]
  | cons r rs ih =>
    simp only [List.length_cons] at h
    have hstep : (setBreakpoints info r.1 r.2).breakpoints_dirty_counter =
        info.breakpoints_dirty_counter + 1 := by
      simp only [setBreakpoints]
      omega
    have h2 := ih (setBreakpoints info r.1 r.2) (by rw [hstep]; omega)
    simp only [setBreakpointsAll, List.foldl_cons, List.length_cons] at h2 ⊢
    rw [h2, hstep]
    omega

/-- C17, counterexample: with the counter at `2^32 - 1`, a set-breakpoints
request takes the 32-bit counter to 0, which is not greater.  A function cache
stamped 0 is then taken for valid: the check recomputes nothing and keeps the
bitmap `[0]`, while the bitmap of the new breakpoint set is `[1]`. -/
theorem dirty_counter_wraps :
    (setBreakpoints ⟨0, fun _ => [], 0, 4294967295, 0, ⟨0, 0, 0⟩, 0⟩ 1
      [5]).breakpoints_dirty_counter = 0 ∧
    ¬ (4294967295 < (setBreakpoints ⟨0, fun _ => [], 0, 4294967295, 0, ⟨0, 0, 0⟩, 0⟩ 1
      [5]).breakpoints_dirty_counter) ∧
    (js_debugger_check_breakpoint
      (setBreakpoints ⟨0, fun _ => [], 0, 4294967295, 0, ⟨0, 0, 0⟩, 0⟩ 1 [5]).breakpoints
      [some ⟨1, 5, 0⟩] ⟨[0], 0, 0⟩
      (setBreakpoints ⟨0, fun _ => [], 0, 4294967295, 0, ⟨0, 0, 0⟩, 0⟩ 1
        [5]).breakpoints_dirty_counter 0).cache.breakpoints = [0] ∧
    breakpoint_bitmap
      (setBreakpoints ⟨0, fun _ => [], 0, 4294967295, 0, ⟨0, 0, 0⟩, 0⟩ 1 [5]).breakpoints
      [some ⟨1, 5, 0⟩] = [1] := by
  decide

/-- C17, amended: for every sequence of set-breakpoints requests that does not
take the 32-bit counter past `2^32 - 1`, the counter after the first `k`
requests is the initial counter plus `k`, so it is strictly greater after each
request than before it; and a function cache stamped no later than the
initial counter, checked after the (non-empty) sequence, is recomputed: it
stores the latest counter and the bitmap of the latest breakpoint set. -/
theorem dirty_counter_increases (info : JSDebuggerInfo) (requests : List (Nat × List Int))
    (h : info.breakpoints_dirty_counter + requests.length < 4294967296) :
    (∀ k, k ≤ requests.length →
      (setBreakpointsAll info (requests.take k)).breakpoints_dirty_counter =
        info.breakpoints_dirty_counter + k) ∧
    (∀ k, k < requests.length →
      (setBreakpointsAll info (requests.take k)).breakpoints_dirty_counter <
        (setBreakpointsAll info (requests.take (k + 1))).breakpoints_dirty_counter) ∧
    (∀ (code : List (Option JSDebuggerLocation)) (cache : JSDebuggerFunctionInfo) (pc : Nat),
      requests ≠ [] → cache.dirty ≤ info.breakpoints_dirty_counter →
      (js_debugger_check_breakpoint (setBreakpointsAll info requests).breakpoints code cache
          (setBreakpointsAll info requests).breakpoints_dirty_counter pc).cache.dirty =
        (setBreakpointsAll info requests).breakpoints_dirty_counter ∧
      (js_debugger_check_breakpoint (setBreakpointsAll info requests).breakpoints code cache
          (setBreakpointsAll info requests).breakpoints_dirty_counter pc).cache.breakpoints =
        breakpoint_bitmap (setBreakpointsAll info requests).breakpoints code) := by
  have hk : ∀ k, k ≤ requests.length →
      (setBreakpointsAll info (requests.take k)).breakpoints_dirty_counter =
        info.breakpoints_dirty_counter + k := by
    intro k hk
    have hl : (requests.take k).length = k := by
      rw [List.length_take]; omega
    have := setBreakpointsAll_counter (requests.take k) info (by rw [hl]; omega)
    rw [this, hl]
  refine ⟨hk, ?_, ?_⟩
  · intro k hlt
    rw [hk k (by omega), hk (k + 1) (by omega)]
    omega
  · intro code cache pc hne hcache
    have hlen : 0 < requests.length := List.length_pos.mpr hne
    have hfinal := setBreakpointsAll_counter requests info h
    have hmiss : ¬ (cache.dirty = (setBreakpointsAll info requests).breakpoints_dirty_counter) := by
      rw [hfinal]; omega
    simp [js_debugger_check_breakpoint, hmiss]

/-- Witness for C17, amended: two requests starting from counter 1, and a cache
stamped 1 that is checked after them. -/
theorem dirty_counter_increases_witness :
    (setBreakpointsAll ⟨0, fun _ => [], 0, 1, 0, ⟨0, 0, 0⟩, 0⟩
      ([(1, [5]), (1, [6])].take 1)).breakpoints_dirty_counter <
    (setBreakpointsAll ⟨0, fun _ => [], 0, 1, 0, ⟨0, 0, 0⟩, 0⟩
      ([(1, [5]), (1, [6])].take (1 + 1))).breakpoints_dirty_counter ∧
    ((js_debugger_check_breakpoint
        (setBreakpointsAll ⟨0, fun _ => [], 0, 1, 0, ⟨0, 0, 0⟩, 0⟩
          [(1, [5]), (1, [6])]).breakpoints
        [some ⟨1, 6, 0⟩, none] ⟨[0, 0], 1, 0⟩
        (setBreakpointsAll ⟨0, fun _ => [], 0, 1, 0, ⟨0, 0, 0⟩, 0⟩
          [(1, [5]), (1, [6])]).breakpoints_dirty_counter 0).cache.dirty =
      (setBreakpointsAll ⟨0, fun _ => [], 0, 1, 0, ⟨0, 0, 0⟩, 0⟩
        [(1, [5]), (1, [6])]).breakpoints_dirty_counter ∧
    (js_debugger_check_breakpoint
        (setBreakpointsAll ⟨0, fun _ => [], 0, 1, 0, ⟨0, 0, 0⟩, 0⟩
          [(1, [5]), (1, [6])]).breakpoints
        [some ⟨1, 6, 0⟩, none] ⟨[0, 0], 1, 0⟩
        (setBreakpointsAll ⟨0, fun _ => [], 0, 1, 0, ⟨0, 0, 0⟩, 0⟩
          [(1, [5]), (1, [6])]).breakpoints_dirty_counter 0).cache.breakpoints =
      breakpoint_bitmap
        (setBreakpointsAll ⟨0, fun _ => [], 0, 1, 0, ⟨0, 0, 0⟩, 0⟩
          [(1, [5]), (1, [6])]).breakpoints
        [some ⟨1, 6, 0⟩, none]) :=
  ⟨(dirty_counter_increases ⟨0, fun _ => [], 0, 1, 0, ⟨0, 0, 0⟩, 0⟩ [(1, [5]), (1, [6])]
      (by decide)).2.1 1 (by decide),
   (dirty_counter_increases ⟨0, fun _ => [], 0, 1, 0, ⟨0, 0, 0⟩, 0⟩ [(1, [5]), (1, [6])]
      (by decide)).2.2 [some ⟨1, 6, 0⟩, none] ⟨[0, 0], 1, 0⟩ 0 (by decide) (by decide)⟩

/-! ## Theorems: parsing the address and waiting for a connection -/

/-- In `H ++ c :: P` with no `c` in `H`, `strstr` finds the `c` after `H`. -/
theorem strstr_append (H P : List Char) (c : Char) (h : c ∉ H) :
    strstr (H ++ c :: P) c = some H.length := by
  induction H with
  | nil => simp [strstr]
  | cons x xs ih =>
    have hx : ¬ (x = c) := fun e => h (e ▸ List.mem_cons_self _ _)
    have hxs : c ∉ xs := fun e => h (List.mem_cons_of_mem _ e)
    simp [strstr, hx, ih hxs]

/-- On a string of digits `atoi_digits` is the decimal (Horner) value. -/
theorem atoi_digits_eq_foldl (P : List Char) (acc : Nat) (hP : ∀ c ∈ P, isdigit c = true) :
    atoi_digits P acc = P.foldl (fun n c => n * 10 + (c.toNat - 48)) acc := by
  induction P generalizing acc with
  | nil => simp [atoi_digits]
  | cons c cs ih =>
    have hc : isdigit c = true := hP c (List.mem_cons_self _ _)
    have hcs : ∀ d ∈ cs, isdigit d = true := fun d hd => hP d (List.mem_cons_of_mem _ hd)
    simp [atoi_digits, hc, ih _ hcs]

/-- On a non-empty string of digits whose value fits an `int`, `atoi` is that value. -/
theorem atoi_of_digits (P : List Char) (hne : P ≠ []) (hP : ∀ c ∈ P, isdigit c = true)
    (hv : P.foldl (fun n c => n * 10 + (c.toNat - 48)) 0 ≤ 2147483647) :
    atoi P = some ((P.foldl (fun n c => n * 10 + (c.toNat - 48)) 0 : Nat) : Int) := by
  cases P with
  | nil => exact absurd rfl hne
  | cons c t =>
    have hc : isdigit c = true := hP c (List.mem_cons_self _ _)
    have hrange : 48 ≤ c.toNat ∧ c.toNat ≤ 57 := by simpa [isdigit] using hc
    have hsp : isspace c = false := by
      simp only [isspace, Bool.or_eq_false_iff, Bool.and_eq_false_iff, decide_eq_false_iff_not]
      omega
    have hminus : ¬ (c = '-') := by
      intro e
      rw [e] at hrange
      exact absurd hrange (by decide)
    have hplus : ¬ (c = '+') := by
      intro e
      rw [e] at hrange
      exact absurd hrange (by decide)
    have hd := atoi_digits_eq_foldl (c :: t) 0 hP
    unfold atoi
    simp only [List.dropWhile, hsp, hminus, hplus, if_false, hd]
    simp only [INT_MIN, INT_MAX]
    rw [if_pos]
    constructor <;> omega

/-- The parse of an address `H:P` with `H` free of `':'` and resolving to the
address list `a :: rest`, and `P` a decimal numeral of value `p` in 1..65535. -/
theorem js_debugger_parse_sockaddr_eq (ndebug : Bool)
    (resolver : List Char → Option hostent) (H P : List Char) (p a : Nat) (rest : List Nat)
    (hlen : (H ++ ':' :: P).length < 256)
    (hH : ':' ∉ H)
    (hP : P ≠ [] ∧ ∀ c ∈ P, isdigit c = true)
    (hp : P.foldl (fun n c => n * 10 + (c.toNat - 48)) 0 = p)
    (hrange : 1 ≤ p ∧ p ≤ 65535)
    (hres : resolver H = some ⟨a :: rest⟩) :
    js_debugger_parse_sockaddr ndebug resolver (H ++ ':' :: P) =
      ⟨Outcome.returned ⟨AF_INET, htons p, a⟩, [Call.gethostbyname H]⟩ := by
  have hatoi : atoi P = some (p : Int) := by
    have := atoi_of_digits P hP.1 hP.2 (by rw [hp]; omega)
    rw [hp] at this
    exact this
  have hdrop : List.drop (H.length + 1) (H ++ ':' :: P) = P := by
    rw [List.drop_append_eq_append_drop]
    simp
  have htake : List.take H.length (H ++ ':' :: P) = H := by
    simp
  have hp0 : ¬ ((p : Int) = 0) := by omega
  have hl : ¬ ((H ++ ':' :: P).length ≥ 256) := by omega
  unfold js_debugger_parse_sockaddr
  rw [strstr_append H P ':' hH]
  simp only [hdrop, hatoi, htake, hres, hp0, hl, and_false, if_false, List.head?_cons]

/-- The only call `js_debugger_parse_sockaddr` makes is `gethostbyname`. -/
theorem js_debugger_parse_sockaddr_calls (ndebug : Bool)
    (resolver : List Char → Option hostent) (address : List Char) :
    ∀ c ∈ (js_debugger_parse_sockaddr ndebug resolver address).calls,
      ∃ name, c = Call.gethostbyname name := by
  intro c hc
  unfold js_debugger_parse_sockaddr at hc
  cases hs : strstr address ':' with
  | none => cases ndebug <;> simp [hs] at hc
  | some i =>
    cases ha : atoi (List.drop (i + 1) address) with
    | none => simp [hs, ha] at hc
    | some port =>
      cases hr : resolver (List.take i address) with
      | none =>
        simp only [hs, ha, hr] at hc
        split_ifs at hc <;> simp at hc <;> exact ⟨_, hc⟩
      | some host =>
        cases hh : host.h_addr_list.head? <;> simp only [hs, ha, hr, hh] at hc <;>
          split_ifs at hc <;> simp at hc <;> exact ⟨_, hc⟩

/-- C11: for every address `H:P` shorter than 256 bytes, where `H` has no
`':'` and resolves, and `P` is a decimal numeral of value `p` with
`1 <= p <= 65535`, `js_debugger_parse_sockaddr` (in both build configurations)
resolves exactly `H` and returns an `AF_INET` address whose IP is the first
address of the resolver and whose port field holds `p` in network byte order
(first byte `p / 256`, second byte `p % 256`).  `js_debugger_connect` passes
this address to `connect`, and every `bind` of `js_debugger_wait_connection`
is on this address: both start with the same `gethostbyname H` of the parse. -/
theorem js_debugger_parse_sockaddr_host_port (ndebug : Bool) (os : Winsock)
    (H P : List Char) (p a : Nat) (rest : List Nat)
    (hlen : (H ++ ':' :: P).length < 256)
    (hH : ':' ∉ H)
    (hP : P ≠ [] ∧ ∀ c ∈ P, isdigit c = true)
    (hp : P.foldl (fun n c => n * 10 + (c.toNat - 48)) 0 = p)
    (hrange : 1 ≤ p ∧ p ≤ 65535)
    (hres : os.gethostbyname H = some ⟨a :: rest⟩) :
    js_debugger_parse_sockaddr ndebug os.gethostbyname (H ++ ':' :: P) =
      ⟨Outcome.returned ⟨AF_INET, htons p, a⟩, [Call.gethostbyname H]⟩ ∧
    (htons p % 256 = p / 256 ∧ htons p / 256 = p % 256) ∧
    (js_debugger_connect ndebug os (H ++ ':' :: P)).calls =
      [Call.WSAStartup 514, Call.gethostbyname H, Call.socket AF_INET SOCK_STREAM 0,
       Call.connect os.socket ⟨AF_INET, htons p, a⟩, Call.malloc, attach_call ⟨os.socket⟩] ∧
    (js_debugger_wait_connection ndebug os (H ++ ':' :: P)).calls.head? =
      some (Call.gethostbyname H) ∧
    (∀ s addr, Call.bind s addr ∈ (js_debugger_wait_connection ndebug os (H ++ ':' :: P)).calls →
      addr = ⟨AF_INET, htons p, a⟩) := by
  have hparse := js_debugger_parse_sockaddr_eq ndebug os.gethostbyname H P p a rest
    hlen hH hP hp hrange hres
  refine ⟨hparse, ?_, ?_, ?_, ?_⟩
  · simp only [htons]
    have h1 : (((p : Int) % 65536).toNat) = p := by omega
    rw [h1]
    omega
  · simp [js_debugger_connect, hparse]
  · simp only [js_debugger_wait_connection, hparse]
    split_ifs <;> simp
  · intro s addr
    simp only [js_debugger_wait_connection, hparse]
    split_ifs <;> simp [attach_call]

/-- Witness for C11: the address `127.0.0.1:9229`. -/
theorem js_debugger_parse_sockaddr_host_port_witness :
    js_debugger_parse_sockaddr false (fun _ => some ⟨[16777343]⟩) "127.0.0.1:9229".toList =
      ⟨Outcome.returned ⟨AF_INET, htons 9229, 16777343⟩,
        [Call.gethostbyname "127.0.0.1".toList]⟩ :=
  (js_debugger_parse_sockaddr_host_port false ⟨fun _ => some ⟨[16777343]⟩, 7, 0, 0, 0, 8⟩
    "127.0.0.1".toList "9229".toList 9229 16777343 []
    (by decide) (by decide) (by decide) (by decide) (by decide) rfl).1

/-- C12: on every run of `js_debugger_wait_connection` in which the address
is parsed and `socket`, `setsockopt`, `bind` and `accept` succeed, the function
returns, and its calls are: those of the parse, `socket`, (with assertions
compiled in) `setsockopt` and `bind`, `listen`, then one `accept` on the
listening socket, `closesocket` of the listening socket, `malloc`, and one
`js_debugger_attach` with the four socket transport functions and a transport
whose handle is the accepted socket.  No call before that `accept` is an
`accept` or a `js_debugger_attach`, so there is exactly one of each. -/
theorem js_debugger_wait_connection_accepts_once (ndebug : Bool) (os : Winsock)
    (address : List Char) (addr : sockaddr_in)
    (hparse : (js_debugger_parse_sockaddr ndebug os.gethostbyname address).result =
      Outcome.returned addr)
    (hsocket : os.socket ≠ INVALID_SOCKET) (hopt : 0 ≤ os.setsockopt) (hbind : 0 ≤ os.bind)
    (haccept : os.accept ≠ INVALID_SOCKET) :
    (js_debugger_wait_connection ndebug os address).result = Outcome.returned () ∧
    (js_debugger_wait_connection ndebug os address).calls =
      ((js_debugger_parse_sockaddr ndebug os.gethostbyname address).calls ++
        [Call.socket AF_INET SOCK_STREAM 0] ++
        (if ndebug then [] else
          [Call.setsockopt os.socket SOL_SOCKET SO_REUSEADDR 1, Call.bind os.socket addr]) ++
        [Call.listen os.socket 1]) ++
      [Call.accept os.socket, Call.closesocket os.socket, Call.malloc,
        Call.js_debugger_attach TransportFn.js_transport_read TransportFn.js_transport_write
          TransportFn.js_transport_peek TransportFn.js_transport_close ⟨os.accept⟩] ∧
    (∀ c ∈ ((js_debugger_parse_sockaddr ndebug os.gethostbyname address).calls ++
        [Call.socket AF_INET SOCK_STREAM 0] ++
        (if ndebug then [] else
          [Call.setsockopt os.socket SOL_SOCKET SO_REUSEADDR 1, Call.bind os.socket addr]) ++
        [Call.listen os.socket 1]),
      (∀ s, c ≠ Call.accept s) ∧ (∀ r w p cl u, c ≠ Call.js_debugger_attach r w p cl u)) := by
  have hopt2 : ¬ (os.setsockopt < 0) := by omega
  have hbind2 : ¬ (os.bind < 0) := by omega
  refine ⟨?_, ?_, ?_⟩
  · simp only [js_debugger_wait_connection, hparse]
    cases ndebug <;> simp [hsocket, hopt2, hbind2, haccept]
  · simp only [js_debugger_wait_connection, hparse]
    cases ndebug <;> simp [hsocket, hopt2, hbind2, haccept, attach_call]
  · intro c hc
    simp only [List.mem_append] at hc
    rcases hc with ((hc | hc) | hc) | hc
    · obtain ⟨name, rfl⟩ := js_debugger_parse_sockaddr_calls ndebug os.gethostbyname address c hc
      simp
    · simp at hc; subst hc; simp
    · cases ndebug <;> simp at hc
      rcases hc with rfl | rfl <;> simp
    · simp at hc; subst hc; simp

/-- Witness for C12: the address `127.0.0.1:9229`, listening socket 7, accepted
socket 8, assertions compiled in. -/
theorem js_debugger_wait_connection_accepts_once_witness :
    (js_debugger_wait_connection false ⟨fun _ => some ⟨[16777343]⟩, 7, 0, 0, 0, 8⟩
      "127.0.0.1:9229".toList).result = Outcome.returned () :=
  (js_debugger_wait_connection_accepts_once false ⟨fun _ => some ⟨[16777343]⟩, 7, 0, 0, 0, 8⟩
    "127.0.0.1:9229".toList ⟨AF_INET, htons 9229, 16777343⟩
    (by decide) (by decide) (by decide) (by decide) (by decide)).1

/-- C13, the code at the failing input: the address `127.0.0.1:9229` with every
call succeeding (listening socket 7, accepted socket 8).  With assertions
compiled in, the calls are `gethostbyname`, `socket`, `setsockopt`, `bind`,
`listen`, `accept`, `closesocket`, `malloc`, `js_debugger_attach`.  With
`NDEBUG` the `setsockopt` and `bind` written inside `assert(...)` are gone:
the socket is listened on without having been bound.  Under `NDEBUG` no run,
whatever the address and the answers of the system, contains a `bind` or a
`setsockopt`. -/
theorem js_debugger_wait_connection_ndebug_drops_bind (os : Winsock) (address : List Char) :
    (js_debugger_wait_connection false ⟨fun _ => some ⟨[16777343]⟩, 7, 0, 0, 0, 8⟩
        "127.0.0.1:9229".toList).calls =
      [Call.gethostbyname "127.0.0.1".toList, Call.socket AF_INET SOCK_STREAM 0,
       Call.setsockopt 7 SOL_SOCKET SO_REUSEADDR 1,
       Call.bind 7 ⟨AF_INET, htons 9229, 16777343⟩,
       Call.listen 7 1, Call.accept 7, Call.closesocket 7, Call.malloc, attach_call ⟨8⟩] ∧
    (js_debugger_wait_connection true ⟨fun _ => some ⟨[16777343]⟩, 7, 0, 0, 0, 8⟩
        "127.0.0.1:9229".toList).calls =
      [Call.gethostbyname "127.0.0.1".toList, Call.socket AF_INET SOCK_STREAM 0,
       Call.listen 7 1, Call.accept 7, Call.closesocket 7, Call.malloc, attach_call ⟨8⟩] ∧
    (∀ c ∈ (js_debugger_wait_connection true os address).calls,
      (∀ s a, c ≠ Call.bind s a) ∧ (∀ s l o v, c ≠ Call.setsockopt s l o v)) := by
  refine ⟨by decide, by decide, ?_⟩
  intro c hc
  have hp := js_debugger_parse_sockaddr_calls true os.gethostbyname address
  unfold js_debugger_wait_connection at hc
  cases hr : (js_debugger_parse_sockaddr true os.gethostbyname address).result with
  | aborted =>
    simp only [hr] at hc
    obtain ⟨name, rfl⟩ := hp c hc
    simp
  | undefined =>
    simp only [hr] at hc
    obtain ⟨name, rfl⟩ := hp c hc
    simp
  | returned addr =>
    simp [hr, attach_call] at hc
    rcases hc with hc | hc | hc | hc | hc | hc | hc
    · obtain ⟨name, rfl⟩ := hp c hc
      simp
    all_goals subst hc; simp

/-! ## Theorems: pointers and integers under strict NaN boxing -/

/-- For a tag below 16 the two fields that `JS_MKPTR` joins do not overlap. -/
theorem JS_MKPTR_eq_add (t p : Nat) (ht : t ≤ 15) :
    JS_MKPTR t p = 281474976710656 * t + p % 281474976710656 := by
  have hmask : (0x0000FFFFFFFFFFFF : Nat) = 2 ^ 48 - 1 := by norm_num
  have hy : p % 2 ^ 48 < 2 ^ 48 := Nat.mod_lt _ (by norm_num)
  have hand : 0xF &&& t = t := by
    rw [Nat.and_comm]
    exact Nat.and_pow_two_sub_one_of_lt_two_pow (n := 4) (by omega)
  have hor := Nat.mul_add_lt_is_or hy t
  unfold JS_MKPTR
  rw [hand, hmask, Nat.and_pow_two_sub_one_eq_mod, Nat.shiftLeft_eq, Nat.mul_comm t (2 ^ 48),
    ← hor]
  norm_num

/-- The tag of a value built by `JS_MKVAL` with a tag below 16. -/
theorem JS_VALUE_GET_TAG_JS_MKVAL (t : Nat) (x : Int) (ht : t ≤ 15) :
    JS_VALUE_GET_TAG (JS_MKVAL t x) = t := by
  rw [JS_MKVAL_eq_add t x ht]
  unfold JS_VALUE_GET_TAG
  rw [Nat.shiftRight_eq_div_pow]
  split_ifs with h <;> omega

/-- C21: under strict NaN boxing on a 64-bit target, for every tag `t` in
8..15 and every pointer value `p < 2^48`, `JS_VALUE_GET_PTR (JS_MKPTR t p) = p`
and `JS_VALUE_GET_TAG (JS_MKPTR t p) = t`. -/
theorem JS_MKPTR_roundtrip (t p : Nat) (ht : 8 ≤ t ∧ t ≤ 15) (hp : p < 281474976710656) :
    JS_VALUE_GET_PTR (JS_MKPTR t p) = p ∧ JS_VALUE_GET_TAG (JS_MKPTR t p) = t := by
  have hmask : (0x0000FFFFFFFFFFFF : Nat) = 2 ^ 48 - 1 := by norm_num
  rw [JS_MKPTR_eq_add t p ht.2]
  constructor
  · unfold JS_VALUE_GET_PTR
    rw [hmask, Nat.and_pow_two_sub_one_eq_mod]
    omega
  · unfold JS_VALUE_GET_TAG
    rw [Nat.shiftRight_eq_div_pow]
    split_ifs with h <;> omega

/-- Witness for C21: an object pointer with all 48 bits set. -/
theorem JS_MKPTR_roundtrip_witness :
    (8 ≤ JS_TAG_OBJECT ∧ JS_TAG_OBJECT ≤ 15) ∧
    JS_VALUE_GET_PTR (JS_MKPTR JS_TAG_OBJECT 281474976710655) = 281474976710655 ∧
    JS_VALUE_GET_TAG (JS_MKPTR JS_TAG_OBJECT 281474976710655) = JS_TAG_OBJECT :=
  ⟨by decide, JS_MKPTR_roundtrip JS_TAG_OBJECT 281474976710655 (by decide) (by decide)⟩

/-- C22, the code on the values of the claim: under strict NaN boxing
`JS_VALUE_IS_BOTH_INT(v1, v2)` holds iff both tags are 0, which is
`JS_TAG_UNINITIALIZED`; the tag of `JS_NewInt32(a)` is `JS_TAG_INT = 1`, so the
macro is false for `JS_NewInt32(a)` and `JS_NewInt32(b)` for all `a` and `b`
(for instance 1 and 2), and true for two uninitialized values. -/
theorem JS_VALUE_IS_BOTH_INT_strict (v1 v2 : Nat) (a b : Int) :
    (JS_VALUE_IS_BOTH_INT v1 v2 = true ↔
      (JS_VALUE_GET_TAG v1 = JS_TAG_UNINITIALIZED ∧
        JS_VALUE_GET_TAG v2 = JS_TAG_UNINITIALIZED)) ∧
    JS_VALUE_GET_TAG (JS_NewInt32 a) = JS_TAG_INT ∧
    JS_VALUE_IS_BOTH_INT (JS_NewInt32 a) (JS_NewInt32 b) = false ∧
    JS_VALUE_IS_BOTH_INT (JS_NewInt32 1) (JS_NewInt32 2) = false ∧
    JS_VALUE_IS_BOTH_INT JS_UNINITIALIZED JS_UNINITIALIZED = true := by
  have hta : JS_VALUE_GET_TAG (JS_NewInt32 a) = 1 :=
    JS_VALUE_GET_TAG_JS_MKVAL 1 a (by omega)
  have htb : JS_VALUE_GET_TAG (JS_NewInt32 b) = 1 :=
    JS_VALUE_GET_TAG_JS_MKVAL 1 b (by omega)
  refine ⟨?_, hta, ?_, by decide, by decide⟩
  · have h1 := JS_VALUE_GET_TAG_le v1
    have h2 := JS_VALUE_GET_TAG_le v2
    unfold JS_VALUE_IS_BOTH_INT
    generalize JS_VALUE_GET_TAG v1 = t1 at h1
    generalize JS_VALUE_GET_TAG v2 = t2 at h2
    interval_cases t1 <;> interval_cases t2 <;> decide
  · unfold JS_VALUE_IS_BOTH_INT
    rw [hta, htb]
    decide

/-- C26: for every 32-bit signed integer `x`, negative ones included,
`JS_VALUE_GET_INT (JS_NewInt32 x) = x` and the tag of `JS_NewInt32 x` is
`JS_TAG_INT`. -/
theorem JS_NewInt32_roundtrip (x : Int) (hx : INT_MIN ≤ x ∧ x ≤ INT_MAX) :
    JS_VALUE_GET_INT (JS_NewInt32 x) = x ∧ JS_VALUE_GET_TAG (JS_NewInt32 x) = JS_TAG_INT := by
  obtain ⟨hlo, hhi⟩ := hx
  simp only [INT_MIN, INT_MAX] at hlo hhi
  refine ⟨?_, JS_VALUE_GET_TAG_JS_MKVAL 1 x (by omega)⟩
  unfold JS_NewInt32
  rw [JS_MKVAL_eq_add JS_TAG_INT x (by decide)]
  unfold JS_VALUE_GET_INT
  simp only [JS_TAG_INT]
  split_ifs with h <;> omega

/-- Witness for C26: the integer `-1`. -/
theorem JS_NewInt32_roundtrip_witness :
    (INT_MIN ≤ -1 ∧ (-1 : Int) ≤ INT_MAX) ∧
    JS_VALUE_GET_INT (JS_NewInt32 (-1)) = -1 ∧
    JS_VALUE_GET_TAG (JS_NewInt32 (-1)) = JS_TAG_INT :=
  ⟨by decide, JS_NewInt32_roundtrip (-1) (by decide)⟩

/-! ## Theorems: the closed transport, the port range and Winsock start-up -/

/-- C23, the code at the failing input: after `js_transport_close` on the
transport with handle 5 the stored handle is 0, not `INVALID_SOCKET`; a later
`js_transport_read`, `js_transport_write` or `js_transport_peek` on that
transport passes the handle test and calls `recv`, `send` or `WSAPoll` on
socket 0, returning what that call gives and not `-1`. -/
theorem js_transport_close_then_use :
    (js_transport_close ⟨5⟩).result.handle = 0 ∧
    (js_transport_close ⟨5⟩).result.handle ≠ INVALID_SOCKET ∧
    (js_transport_read (js_transport_close ⟨5⟩).result 4096 10 3).result = 3 ∧
    (js_transport_read (js_transport_close ⟨5⟩).result 4096 10 3).calls =
      [Call.recv 0 4096 10 0] ∧
    (js_transport_write (js_transport_close ⟨5⟩).result 4096 10 3).result = 3 ∧
    (js_transport_write (js_transport_close ⟨5⟩).result 4096 10 3).calls =
      [Call.send 0 4096 10 0] ∧
    (js_transport_peek (js_transport_close ⟨5⟩).result 0).result = 0 ∧
    (js_transport_peek (js_transport_close ⟨5⟩).result 0).calls =
      [Call.WSAPoll [⟨0, POLLIN, 0⟩] 1 0] := by
  decide

/-- C24, counterexample: with assertions compiled in and a host that
resolves, the port texts `65536`, `70000` and `-1` are accepted; the port
stored is the value reduced modulo `2^16` (0, 4464 and 65535), held in network
byte order. -/
theorem js_debugger_parse_sockaddr_port_not_checked :
    (js_debugger_parse_sockaddr false (fun _ => some ⟨[16777343]⟩)
      "localhost:65536".toList).result = Outcome.returned ⟨AF_INET, 0, 16777343⟩ ∧
    (js_debugger_parse_sockaddr false (fun _ => some ⟨[16777343]⟩)
      "localhost:70000".toList).result = Outcome.returned ⟨AF_INET, htons 4464, 16777343⟩ ∧
    (js_debugger_parse_sockaddr false (fun _ => some ⟨[16777343]⟩)
      "localhost:-1".toList).result = Outcome.returned ⟨AF_INET, htons 65535, 16777343⟩ := by
  decide

/-- C24, amended: whenever `js_debugger_parse_sockaddr` accepts an address,
the address has a `':'`, `atoi` reads an `int` value `v` after the first one
(non-zero when assertions are compiled in), and the port stored is `htons v`:
its two bytes, read in network order, give `v` reduced modulo `2^16`, which is
`v` itself when `1 <= v <= 65535`. -/
theorem js_debugger_parse_sockaddr_port (ndebug : Bool)
    (resolver : List Char → Option hostent) (address : List Char) (addr : sockaddr_in)
    (h : (js_debugger_parse_sockaddr ndebug resolver address).result = Outcome.returned addr) :
    ∃ i v, strstr address ':' = some i ∧ atoi (address.drop (i + 1)) = some v ∧
      (ndebug = false → v ≠ 0) ∧
      addr.sin_port = htons v ∧
      (addr.sin_port % 256) * 256 + addr.sin_port / 256 = (v % 65536).toNat ∧
      (1 ≤ v ∧ v ≤ 65535 →
        (((addr.sin_port % 256) * 256 + addr.sin_port / 256 : Nat) : Int) = v) := by
  have hswap : ∀ v : Int,
      (htons v % 256) * 256 + htons v / 256 = (v % 65536).toNat := by
    intro v
    simp only [htons]
    omega
  unfold js_debugger_parse_sockaddr at h
  cases hs : strstr address ':' with
  | none => cases ndebug <;> simp [hs] at h
  | some i =>
    cases ha : atoi (List.drop (i + 1) address) with
    | none => simp [hs, ha] at h
    | some port =>
      refine ⟨i, port, rfl, ha, ?_⟩
      cases hr : resolver (List.take i address) with
      | none =>
        simp only [hs, ha, hr] at h
        split_ifs at h
      | some host =>
        cases hh : host.h_addr_list.head? with
        | none =>
          simp only [hs, ha, hr, hh] at h
          split_ifs at h
        | some a =>
          simp only [hs, ha, hr, hh] at h
          split_ifs at h with h1 h2
          simp only [Outcome.returned.injEq] at h
          subst h
          refine ⟨?_, rfl, hswap port, ?_⟩
          · intro hn hp
            exact h1 ⟨by simp [hn], hp⟩
          · intro hrange
            have := hswap port
            simp only at this ⊢
            omega

/-- Witness for C24, amended: the address `127.0.0.1:9229`. -/
theorem js_debugger_parse_sockaddr_port_witness :
    ∃ i v, strstr "127.0.0.1:9229".toList ':' = some i ∧
      atoi ("127.0.0.1:9229".toList.drop (i + 1)) = some v ∧
      (false = false → v ≠ 0) ∧
      (⟨AF_INET, htons 9229, 16777343⟩ : sockaddr_in).sin_port = htons v ∧
      ((⟨AF_INET, htons 9229, 16777343⟩ : sockaddr_in).sin_port % 256) * 256 +
        (⟨AF_INET, htons 9229, 16777343⟩ : sockaddr_in).sin_port / 256 = (v % 65536).toNat ∧
      (1 ≤ v ∧ v ≤ 65535 →
        ((((⟨AF_INET, htons 9229, 16777343⟩ : sockaddr_in).sin_port % 256) * 256 +
          (⟨AF_INET, htons 9229, 16777343⟩ : sockaddr_in).sin_port / 256 : Nat) : Int) = v) :=
  js_debugger_parse_sockaddr_port false (fun _ => some ⟨[16777343]⟩) "127.0.0.1:9229".toList
    ⟨AF_INET, htons 9229, 16777343⟩ (by decide)

/-- C25, the code at the failing input.  `js_debugger_wait_connection` never
calls `WSAStartup`, whatever the build, the address and the answers of the
system, while `js_debugger_connect` always starts with it.  For the address
`127.0.0.1:9229` with every call succeeding, the transport with handle 8 is
created without a `WSAStartup` in the run, and closing it calls `WSACleanup`. -/
theorem js_debugger_wait_connection_no_WSAStartup (ndebug : Bool) (os : Winsock)
    (address : List Char) :
    (∀ c ∈ (js_debugger_wait_connection ndebug os address).calls,
      ∀ version, c ≠ Call.WSAStartup version) ∧
    (js_debugger_connect ndebug os address).calls.head? = some (Call.WSAStartup 514) ∧
    (js_debugger_wait_connection false ⟨fun _ => some ⟨[16777343]⟩, 7, 0, 0, 0, 8⟩
        "127.0.0.1:9229".toList).calls =
      [Call.gethostbyname "127.0.0.1".toList, Call.socket AF_INET SOCK_STREAM 0,
       Call.setsockopt 7 SOL_SOCKET SO_REUSEADDR 1,
       Call.bind 7 ⟨AF_INET, htons 9229, 16777343⟩,
       Call.listen 7 1, Call.accept 7, Call.closesocket 7, Call.malloc, attach_call ⟨8⟩] ∧
    (js_transport_close ⟨8⟩).calls = [Call.closesocket 8, Call.free, Call.WSACleanup] := by
  refine ⟨?_, ?_, by decide, by decide⟩
  · intro c hc version heq
    subst heq
    have hp := js_debugger_parse_sockaddr_calls ndebug os.gethostbyname address
    have hno : Call.WSAStartup version ∉
        (js_debugger_parse_sockaddr ndebug os.gethostbyname address).calls := by
      intro hm
      obtain ⟨name, hn⟩ := hp _ hm
      simp at hn
    unfold js_debugger_wait_connection at hc
    cases hr : (js_debugger_parse_sockaddr ndebug os.gethostbyname address).result with
    | aborted =>
      simp only [hr] at hc
      exact hno hc
    | undefined =>
      simp only [hr] at hc
      exact hno hc
    | returned addr =>
      simp only [hr] at hc
      split_ifs at hc <;> simp [attach_call] at hc <;> exact hno hc
  · simp only [js_debugger_connect]
    cases hr : (js_debugger_parse_sockaddr ndebug os.gethostbyname address).result <;> simp

end QuickJS
